import Mathlib

/-!
The test evaluator of `src/index.js`.

A shallow embedding of the function `testing` of `src/index.js` and of the
fragments of JavaScript it relies on: truthiness, `typeof v == "object"`,
`JSON.stringify`, the loose equality `==` and the relational operators on
primitive values, `String.prototype.toLowerCase`, `Array.prototype.includes`.

Values are the values a JSON document denotes.  Numbers are the integer-valued
ones (`Int`); a string converted to a number denotes the exact decimal value of
its numeral, the rounding to a binary64 is not part of the model.
-/

namespace AxiosTester

/-! ## Values -/

/-- Primitive values of a JSON document: `null`, booleans, numbers, strings.
A number is integer-valued; the zero stands for both zeros, which every
operation used here treats alike. -/
inductive Prim where
  | null
  | bool (b : Bool)
  | num (n : Int)
  | str (s : String)
  deriving DecidableEq, Repr

/-- Values of a JSON document. The properties of an object are listed in
enumeration order, which is the order `JSON.stringify` writes them in. -/
inductive JVal where
  | prim (p : Prim)
  | arr (xs : List JVal)
  | obj (kvs : List (String × JVal))
  deriving Repr

/-- Structured values: arrays and objects. -/
def JVal.isStructured : JVal → Bool
  | .prim _ => false
  | .arr _ => true
  | .obj _ => true

/-- ToBoolean of a primitive: `null`, `false`, `0` and `""` are falsy. -/
def Prim.truthy : Prim → Bool
  | .null => false
  | .bool b => b
  | .num n => n != 0
  | .str s => s != ""

/-- ToBoolean: every array and every object is truthy. -/
def JVal.truthy : JVal → Bool
  | .prim p => p.truthy
  | .arr _ => true
  | .obj _ => true

/-- ToBoolean of a property read `test.f`: an absent property reads `undefined`,
which is falsy. -/
def truthyField : Option JVal → Bool
  | none => false
  | some v => v.truthy

/-- The test `typeof v == "object"`: true of arrays, of objects and of `null`. -/
def JVal.typeofObject : JVal → Bool
  | .prim .null => true
  | .prim _ => false
  | .arr _ => true
  | .obj _ => true

/-! ## Serialization -/

/-- Decimal numeral of an integer-valued number, as Number::toString writes it
for magnitudes below 10^21; from 10^21 on Number::toString switches to the
exponent notation, which this numeral does not follow. -/
def numToString (n : Int) : String :=
  if n < 0 then "-" ++ Nat.repr n.natAbs else Nat.repr n.natAbs

/-- Lower-case hexadecimal digit. -/
def hexDigit (n : Nat) : Char :=
  if n < 10 then Char.ofNat (48 + n) else Char.ofNat (87 + n)

/-- QuoteJSONString on one code point: the named escapes, four-digit unicode
escapes for the other control characters, the character itself otherwise. -/
def quoteChar (c : Char) : List Char :=
  if c = '\x08' then ['\\', 'b']
  else if c = '\t' then ['\\', 't']
  else if c = '\n' then ['\\', 'n']
  else if c = '\x0c' then ['\\', 'f']
  else if c = '\r' then ['\\', 'r']
  else if c = '"' then ['\\', '"']
  else if c = '\\' then ['\\', '\\']
  else if c.toNat < 32 then ['\\', 'u', '0', '0', hexDigit (c.toNat / 16), hexDigit (c.toNat % 16)]
  else [c]

/-- QuoteJSONString. -/
def quoteString (s : String) : String :=
  String.mk ('"' :: (s.data.flatMap quoteChar ++ ['"']))

/-- Serialization of a primitive by `JSON.stringify`. -/
def Prim.stringify : Prim → String
  | .null => "null"
  | .bool true => "true"
  | .bool false => "false"
  | .num n => numToString n
  | .str s => quoteString s

mutual
/-- The function `JSON.stringify` (no indentation, no replacer). -/
def JVal.stringify : JVal → String
  | .prim p => p.stringify
  | .arr xs => "[" ++ stringifyElems xs ++ "]"
  | .obj kvs => "\x7b" ++ stringifyProps kvs ++ "\x7d"
/-- Comma-separated serialization of the elements of an array. -/
def stringifyElems : List JVal → String
  | [] => ""
  | [x] => x.stringify
  | x :: y :: rest => x.stringify ++ "," ++ stringifyElems (y :: rest)
/-- Comma-separated serialization of the properties of an object. -/
def stringifyProps : List (String × JVal) → String
  | [] => ""
  | [(k, v)] => quoteString k ++ ":" ++ v.stringify
  | (k, v) :: p :: rest => quoteString k ++ ":" ++ v.stringify ++ "," ++ stringifyProps (p :: rest)
end

/-! ## Conversion of strings to numbers -/

/-- Result of ToNumber: `NaN`, an infinity, or the decimal value `m * 10 ^ e`. -/
inductive Num where
  | nan
  | inf (neg : Bool)
  | dec (m : Int) (e : Int)
  deriving DecidableEq, Repr

/-- StrWhiteSpaceChar: the white space and line terminator code points. -/
def isStrWhiteSpace (c : Char) : Bool :=
  [9, 10, 11, 12, 13, 32, 0xA0, 0x1680, 0x2028, 0x2029, 0x202F, 0x205F, 0x3000, 0xFEFF].contains c.toNat
    || (0x2000 ≤ c.toNat && c.toNat ≤ 0x200A)

/-- Removal of the leading and trailing white space. -/
def trimWhiteSpace (cs : List Char) : List Char :=
  ((cs.dropWhile isStrWhiteSpace).reverse.dropWhile isStrWhiteSpace).reverse

/-- Value of a digit in a radix up to 16, `none` for any other character. -/
def digitValue (radix : Nat) (c : Char) : Option Nat :=
  let v : Option Nat :=
    if '0' ≤ c ∧ c ≤ '9' then some (c.toNat - 48)
    else if 'a' ≤ c ∧ c ≤ 'f' then some (c.toNat - 87)
    else if 'A' ≤ c ∧ c ≤ 'F' then some (c.toNat - 55)
    else none
  match v with
  | some d => if d < radix then some d else none
  | none => none

/-- Value of a run of digits read after the value `acc`; `none` when a character
is not a digit of the radix. -/
def digitsValue (radix : Nat) : Nat → List Char → Option Nat
  | acc, [] => some acc
  | acc, c :: cs =>
    match digitValue radix c with
    | some d => digitsValue radix (acc * radix + d) cs
    | none => none

/-- Value of a non-empty run of digits. -/
def numeral (radix : Nat) (cs : List Char) : Option Nat :=
  if cs.isEmpty then none else digitsValue radix 0 cs

/-- ExponentPart after its indicator: an optional sign and decimal digits. -/
def exponentValue : List Char → Option Int
  | '+' :: cs => (numeral 10 cs).map Int.ofNat
  | '-' :: cs => (numeral 10 cs).map (fun n => - Int.ofNat n)
  | cs => (numeral 10 cs).map Int.ofNat

/-- Optional ExponentPart closing a numeral: 0 when nothing is left. -/
def exponentPart : List Char → Option Int
  | [] => some 0
  | 'e' :: cs => exponentValue cs
  | 'E' :: cs => exponentValue cs
  | _ => none

/-- StrUnsignedDecimalLiteral other than `Infinity`: digits, an optional
fraction and an optional exponent, with a digit before or after the dot. -/
def unsignedDecimal (cs : List Char) : Option (Nat × Int) :=
  let ip := cs.takeWhile Char.isDigit
  let r := cs.dropWhile Char.isDigit
  match r with
  | '.' :: r1 =>
    let fp := r1.takeWhile Char.isDigit
    let r2 := r1.dropWhile Char.isDigit
    if ip.isEmpty && fp.isEmpty then none
    else
      match digitsValue 10 0 (ip ++ fp), exponentPart r2 with
      | some m, some e => some (m, e - fp.length)
      | _, _ => none
  | _ =>
    if ip.isEmpty then none
    else
      match digitsValue 10 0 ip, exponentPart r with
      | some m, some e => some (m, e)
      | _, _ => none

/-- StrDecimalLiteral after its sign. -/
def signedDecimal (neg : Bool) (cs : List Char) : Num :=
  if cs = "Infinity".data then .inf neg
  else
    match unsignedDecimal cs with
    | some (m, e) => .dec (if neg then - Int.ofNat m else Int.ofNat m) e
    | none => .nan

/-- Integer literal with a radix mark, after the mark. -/
def radixLiteral (radix : Nat) (cs : List Char) : Num :=
  match numeral radix cs with
  | some n => .dec (Int.ofNat n) 0
  | none => .nan

/-- StringToNumber on the trimmed text. -/
def numericLiteral : List Char → Num
  | [] => .dec 0 0
  | '0' :: 'x' :: cs => radixLiteral 16 cs
  | '0' :: 'X' :: cs => radixLiteral 16 cs
  | '0' :: 'o' :: cs => radixLiteral 8 cs
  | '0' :: 'O' :: cs => radixLiteral 8 cs
  | '0' :: 'b' :: cs => radixLiteral 2 cs
  | '0' :: 'B' :: cs => radixLiteral 2 cs
  | '+' :: cs => signedDecimal false cs
  | '-' :: cs => signedDecimal true cs
  | cs => signedDecimal false cs

/-- StringToNumber. -/
def stringToNumber (s : String) : Num :=
  numericLiteral (trimWhiteSpace s.data)

/-- ToNumber of a primitive. -/
def Prim.toNumber : Prim → Num
  | .null => .dec 0 0
  | .bool true => .dec 1 0
  | .bool false => .dec 0 0
  | .num n => .dec n 0
  | .str s => stringToNumber s

/-- The two decimal values brought to a common exponent. -/
def alignDec (m1 e1 m2 e2 : Int) : Int × Int :=
  let e := min e1 e2
  (m1 * 10 ^ (e1 - e).toNat, m2 * 10 ^ (e2 - e).toNat)

/-- Number::equal: `NaN` equals nothing. -/
def Num.eq : Num → Num → Bool
  | .dec m1 e1, .dec m2 e2 => (alignDec m1 e1 m2 e2).1 == (alignDec m1 e1 m2 e2).2
  | .inf a, .inf b => a == b
  | _, _ => false

/-- Number::lessThan: `none` (undefined) when an operand is `NaN`. -/
def Num.lt : Num → Num → Option Bool
  | .nan, _ => none
  | _, .nan => none
  | .dec m1 e1, .dec m2 e2 => some (decide ((alignDec m1 e1 m2 e2).1 < (alignDec m1 e1 m2 e2).2))
  | .dec _ _, .inf neg => some (!neg)
  | .inf neg, .dec _ _ => some neg
  | .inf a, .inf b => some (a && !b)

/-! ## Comparison of primitive values -/

/-- UTF-16 code units of a code point. -/
def utf16Units (c : Char) : List Nat :=
  if c.toNat < 0x10000 then [c.toNat]
  else [0xD800 + (c.toNat - 0x10000) / 0x400, 0xDC00 + (c.toNat - 0x10000) % 0x400]

/-- UTF-16 code units of a string, the sequence string comparison works on. -/
def utf16 (s : String) : List Nat :=
  s.data.flatMap utf16Units

/-- Strict lexicographic order on code unit sequences. -/
def lexLt : List Nat → List Nat → Bool
  | _, [] => false
  | [], _ :: _ => true
  | a :: as, b :: bs => decide (a < b) || (a == b && lexLt as bs)

/-- Number a boolean converts to. -/
def boolToInt (b : Bool) : Int :=
  if b then 1 else 0

/-- IsLooselyEqual, the operator `==`, on primitive values: values of one type
are compared as such, `null` equals only itself, a boolean is converted to a
number, and a string facing a number is converted to a number. -/
def looseEq : Prim → Prim → Bool
  | .null, .null => true
  | .null, _ => false
  | _, .null => false
  | .bool a, .bool b => a == b
  | .num a, .num b => a == b
  | .str a, .str b => a == b
  | .num a, .str s => Num.eq (.dec a 0) (stringToNumber s)
  | .str s, .num b => Num.eq (stringToNumber s) (.dec b 0)
  | .bool a, .num b => boolToInt a == b
  | .num a, .bool b => a == boolToInt b
  | .bool a, .str s => Num.eq (.dec (boolToInt a) 0) (stringToNumber s)
  | .str s, .bool b => Num.eq (stringToNumber s) (.dec (boolToInt b) 0)

/-- IsLessThan on primitive values: two strings are compared by code units,
any other pair as numbers; `none` is the undefined result met with `NaN`. -/
def lessThan : Prim → Prim → Option Bool
  | .str a, .str b => some (lexLt (utf16 a) (utf16 b))
  | x, y => Num.lt x.toNumber y.toNumber

/-- The operator `<`. -/
def jsLt (x y : Prim) : Bool := lessThan x y == some true

/-- The operator `>`. -/
def jsGt (x y : Prim) : Bool := lessThan y x == some true

/-- The operator `<=`. -/
def jsLe (x y : Prim) : Bool := lessThan y x == some false

/-- The operator `>=`. -/
def jsGe (x y : Prim) : Bool := lessThan x y == some false

/-! ## Conversion to strings -/

/-- ToString of a primitive. -/
def Prim.toStr : Prim → String
  | .null => "null"
  | .bool true => "true"
  | .bool false => "false"
  | .num n => numToString n
  | .str s => s

mutual
/-- ToString: an array is joined with commas, an object reads `[object Object]`. -/
def JVal.toStr : JVal → String
  | .prim p => p.toStr
  | .arr xs => joinElems xs
  | .obj _ => "[object Object]"
/-- The method `Array.prototype.join` with a comma: `null` elements are written as
the empty string. -/
def joinElems : List JVal → String
  | [] => ""
  | [.prim .null] => ""
  | [x] => x.toStr
  | .prim .null :: y :: rest => "," ++ joinElems (y :: rest)
  | x :: y :: rest => x.toStr ++ "," ++ joinElems (y :: rest)
end

/-- ASCII fragment of `String.prototype.toLowerCase`: the letters `A`-`Z` are
mapped, every other code point is kept. No code point outside ASCII lower-cases
to a letter of an HTTP verb recognised below. -/
def toLowerCase (s : String) : String :=
  String.mk (s.data.map Char.toLower)

/-- ASCII fragment of `String.prototype.toUpperCase`: the letters `a`-`z` are
mapped, every other code point is kept, where the full mapping also changes the
cased letters outside ASCII. Only the text printed by lines 40 and 82 depends
on it. -/
def toUpperCase (s : String) : String :=
  String.mk (s.data.map Char.toUpper)

/-- The method `Array.prototype.includes` of an array of string literals, applied to
a property read: only a string equal to an element is included. -/
def includesStr (l : List String) : Option JVal → Bool
  | some (.prim (.str s)) => l.contains s
  | _ => false

/-- The comparison `x == "lit"` of a property read with a string literal: a
primitive by `looseEq`, an array or object through its string conversion,
`undefined` never. -/
def looseEqStr (x : Option JVal) (lit : String) : Bool :=
  match x with
  | none => false
  | some (.prim p) => looseEq p (.str lit)
  | some v => v.toStr == lit

/-- The expression `typeof v == "object" ? JSON.stringify(v) : v` of lines 113-141. -/
def normalize (v : JVal) : Prim :=
  if v.typeofObject then .str v.stringify
  else
    match v with
    | .prim p => p
    | .arr _ => .str v.stringify
    | .obj _ => .str v.stringify

/-! ## The evaluator -/

/-- One test definition of `parameters.json`: each property is absent (`none`,
read as `undefined`) or holds a JSON value. -/
structure Test where
  title : Option JVal
  method : Option JVal
  url : Option JVal
  body : Option JVal
  options : Option JVal
  expect : Option JVal
  operator : Option JVal

/-- One invocation `axios[verb](url, second, third)`. A `null` argument is the
JSON value `null`; `url` is the property read `test.url`. -/
structure Call where
  verb : String
  url : Option JVal
  second : JVal
  third : JVal

/-- Behaviour of the transport on a call: the promise is fulfilled with a
response whose `data` is given, or rejected with an error whose `message` is
given. -/
abbrev Transport := Call → Except String JVal

/-- What a console call prints: a text built by the program, a value, or the
`message` of the error the transport failed with. -/
inductive Out where
  | text (s : String)
  | value (v : JVal)
  | message (m : String)

/-- One console call, by channel: `console.log`, `console.error`, `console.warn`. -/
inductive Entry where
  | log (o : Out)
  | error (o : Out)
  | warn (o : Out)

/-- How a call of `testing` completes: the promise is fulfilled with a status,
or rejected with the TypeError raised by `test.method.toLowerCase` when
`method` is not a string. -/
inductive Completion where
  | ret (status : Nat)
  | typeError
  deriving DecidableEq, Repr

/-- Observable behaviour of one call of `testing`: the console calls in order,
the transport invocations in order, the completion. -/
structure Run where
  log : List Entry
  calls : List Call
  result : Completion

/-- The recognised HTTP verbs (line 80). -/
def verbs : List String := ["get", "put", "post", "delete", "patch"]

/-- The recognised operators (line 87). -/
def operators : List String := ["eq", "ne", "gt", "gte", "lt", "lte"]

/-- The null literal passed to the transport. -/
def jnull : JVal := .prim .null

/-- The condition of line 87: `test.operator && !operators.includes(test.operator)`. -/
def operatorRejected (test : Test) : Bool :=
  truthyField test.operator && !includesStr operators test.operator

/-- A property read used as a condition and then as a value: the value when it
is truthy. -/
def truthyValue : Option JVal → Option JVal
  | some v => if v.truthy then some v else none
  | none => none

/-- The arguments of lines 94-105: `test.url`, then
`test.body ? test.body : (test.options ? test.options : null)`, then
`test.body && test.options ? test.options : null`. -/
def request (verb : String) (test : Test) : Call :=
  { verb := verb
    url := test.url
    second :=
      match truthyValue test.body with
      | some b => b
      | none =>
        match truthyValue test.options with
        | some o => o
        | none => jnull
    third :=
      match truthyValue test.body, truthyValue test.options with
      | some _, some o => o
      | _, _ => jnull }

/-- The chain of conditional expressions of lines 110-143, on the response
payload and the expected value. -/
def comparison (test : Test) (data expect : JVal) : Bool :=
  if !truthyField test.operator || looseEqStr test.operator "eq" then
    looseEq (normalize data) (normalize expect)
  else if looseEqStr test.operator "ne" then
    !looseEq (normalize data) (normalize expect)
  else if looseEqStr test.operator "gt" then
    jsGt (normalize data) (normalize expect)
  else if looseEqStr test.operator "lt" then
    jsLt (normalize data) (normalize expect)
  else if looseEqStr test.operator "gte" then
    jsGe (normalize data) (normalize expect)
  else
    jsLe (normalize data) (normalize expect)

/-- ToString of a property read, as in `"..." + test.operator`. -/
def fieldToStr : Option JVal → String
  | some v => v.toStr
  | none => "undefined"

/-- The interpolation `test.operator || "eq"` of lines 145 and 148. -/
def operatorLabel (test : Test) : String :=
  match test.operator with
  | some v => if v.truthy then v.toStr else "eq"
  | none => "eq"

/-- The interpolation `["lt", "gt"].includes(test.operator) ? "than" : "to"`. -/
def thanOrTo (test : Test) : String :=
  if includesStr ["lt", "gt"] test.operator then "than" else "to"

/-- The callback given to `then` (lines 106-160), on the payload `resp.data`. -/
def onResponse (test : Test) (data : JVal) : List Entry :=
  match test.expect with
  | some e =>
    if e.truthy then
      if comparison test data e then
        [ .log (.text "Test Succeeded!\n"),
          .log (.text ("Response was [" ++ operatorLabel test ++ "] " ++ thanOrTo test
            ++ " \"expect\" test.")) ]
      else
        [ .error (.text "Test failed!"),
          .error (.text ("\nExpected response to be [" ++ operatorLabel test ++ "] "
            ++ thanOrTo test ++ " :")),
          .error (.value (.prim (normalize e))),
          .error (.text "\nGot :"),
          .error (.value (.prim (.str data.stringify))) ]
    else
      [ .warn (.text "[WARN] No \"expect\" test. \n"),
        .log (.text "Test Succeeded!\n"),
        .log (.text "Response :"),
        .log (.value data) ]
  | none =>
    [ .warn (.text "[WARN] No \"expect\" test. \n"),
      .log (.text "Test Succeeded!\n"),
      .log (.text "Response :"),
      .log (.value data) ]

/-- The function `testing` (lines 74-167) against a transport. -/
def testing (axios : Transport) (test : Test) : Run :=
  if !truthyField test.method then
    { log := [.error (.text "Test aborted!"), .log (.text "\nNo \"method\" field.")]
      calls := []
      result := .ret 1 }
  else
    match test.method with
    | some (.prim (.str m)) =>
      if !verbs.contains (toLowerCase m) then
        { log := [.error (.text "Test aborted!"),
                  .error (.text ("\nUnknowned Method : " ++ toUpperCase m))]
          calls := []
          result := .ret 1 }
      else if operatorRejected test then
        { log := [.error (.text "Test aborted!"),
                  .error (.text ("\nUnknowned Operator : " ++ fieldToStr test.operator))]
          calls := []
          result := .ret 1 }
      else
        match axios (request (toLowerCase m) test) with
        | .ok data =>
          { log := onResponse test data
            calls := [request (toLowerCase m) test]
            result := .ret 0 }
        | .error message =>
          { log := [.error (.text "Test failed!"), .error (.message message)]
            calls := [request (toLowerCase m) test]
            result := .ret 1 }
    | _ =>
      { log := []
        calls := []
        result := .typeError }

/-! ## The runner -/

/-- State of the script between two tests: the counter `i` of line 35, the
console calls and the transport invocations so far, and the arguments `testing`
was invoked with, in order. -/
structure Session where
  i : Nat
  log : List Entry
  calls : List Call
  evaluated : List Test

/-- The text of line 39: the test number, and the title when it is truthy. -/
def heading (i : Nat) (param : Test) : String :=
  "\nTEST #" ++ numToString (Int.ofNat i)
    ++ (if truthyField param.title then " - " ++ fieldToStr param.title else "")

/-- Lines 38-39: the separator and the heading. -/
def banner (i : Nat) (param : Test) : List Entry :=
  [ .log (.text "\n\n\t**************************************************"),
    .log (.text (heading i param)) ]

/-- Line 40: when `method` and `url` are truthy, the upper-cased method and the
url; `none` when reading `toUpperCase` from a method that is not a string
raises. -/
def requestLine (param : Test) : Option (List Entry) :=
  if truthyField param.method && truthyField param.url then
    match param.method with
    | some (.prim (.str m)) =>
      some [.log (.text (toUpperCase m ++ " " ++ fieldToStr param.url))]
    | _ => none
  else some []

/-- Line 41: the body when it is truthy. -/
def bodyLine (param : Test) : List Entry :=
  match truthyValue param.body with
  | some b => [.log (.value b)]
  | none => []

/-- The callback of lines 37-46 on one test, against the behaviour `axios i` of
the transport during test number `i`: the session after the callback when its
promise is fulfilled (`ok`), the session it leaves when line 40 or `testing`
raises (`error`), in which case the counter is not incremented. -/
def callback (axios : Nat → Transport) (s : Session) (param : Test) : Except Session Session :=
  match requestLine param with
  | none => .error { s with log := s.log ++ banner s.i param }
  | some line =>
    match (testing (axios s.i) param).result with
    | .ret _ =>
      .ok { i := s.i + 1
            log := s.log ++ (banner s.i param ++ line ++ bodyLine param ++ [.log (.text "")]
              ++ (testing (axios s.i) param).log)
            calls := s.calls ++ (testing (axios s.i) param).calls
            evaluated := s.evaluated ++ [param] }
    | .typeError =>
      .error { i := s.i
               log := s.log ++ (banner s.i param ++ line ++ bodyLine param ++ [.log (.text "")]
                 ++ (testing (axios s.i) param).log)
               calls := s.calls ++ (testing (axios s.i) param).calls
               evaluated := s.evaluated ++ [param] }

/-- The function `asyncForEach` (lines 55-59), the callback acting on a state: the
elements are handed to the callback in order, each after the previous call
has completed, and a call that raises ends the loop. -/
def asyncForEach {α σ : Type} : List α → (σ → α → Except σ σ) → σ → Except σ σ
  | [], _, s => .ok s
  | x :: xs, cb, s =>
    match cb s x with
    | .ok s2 => asyncForEach xs cb s2
    | .error s2 => .error s2

/-- The script (lines 35-46): the counter starts at 1 and `asyncForEach` runs the
callback over the tests of `parameters.json`. -/
def script (axios : Nat → Transport) (params : List Test) : Except Session Session :=
  asyncForEach params (callback axios) { i := 1, log := [], calls := [], evaluated := [] }

/-- What the callback prints for the test `param` under the number `i` when nothing
raises: lines 38-42, then the console calls of `testing`. -/
def block (axios : Nat → Transport) (i : Nat) (param : Test) : List Entry :=
  banner i param ++ (requestLine param).getD [] ++ bodyLine param ++ [.log (.text "")]
    ++ (testing (axios i) param).log

/-- The property `method` is absent, falsy or a string: whenever it is truthy,
`toLowerCase` and `toUpperCase` can be read from it. -/
def stringMethod (test : Test) : Bool :=
  match test.method with
  | some (.prim (.str _)) => true
  | other => !truthyField other

/-! ## Reading a run -/

/-- The line `Test Succeeded!` of lines 144 and 156. -/
def Entry.isSucceeded : Entry → Bool
  | .log (.text s) => s == "Test Succeeded!\n"
  | _ => false

/-- The line `Test failed!` of lines 147 and 163. -/
def Entry.isFailed : Entry → Bool
  | .error (.text s) => s == "Test failed!"
  | _ => false

/-- The line `Test aborted!` of lines 77, 81 and 88. -/
def Entry.isAborted : Entry → Bool
  | .error (.text s) => s == "Test aborted!"
  | _ => false

/-- A value sent to the error channel: the expected value of line 149 and the
serialized payload of line 151. -/
def Entry.isExpected : Entry → Bool
  | .error (.value _) => true
  | _ => false

/-- The warning of line 155. -/
def Entry.isNoExpectWarning : Entry → Bool
  | .warn (.text s) => s == "[WARN] No \"expect\" test. \n"
  | _ => false

/-- Outcome Succeeded: the run printed `Test Succeeded!`. -/
def Run.succeeded (r : Run) : Bool := r.log.any Entry.isSucceeded

/-- Outcome Failed: the run printed `Test failed!` with the expected value. -/
def Run.failed (r : Run) : Bool := r.log.any Entry.isFailed && r.log.any Entry.isExpected

/-- Outcome Aborted: the run printed `Test aborted!`. -/
def Run.aborted (r : Run) : Bool := r.log.any Entry.isAborted

/-- The test with the given properties and no other. -/
def Test.empty : Test :=
  { title := none, method := none, url := none, body := none, options := none,
    expect := none, operator := none }

/-- String value. -/
def jstr (s : String) : JVal := .prim (.str s)

/-- Number value. -/
def jnum (n : Int) : JVal := .prim (.num n)

/-- The test passes the checks of lines 76-91 and names the verb `verb`:
`method` is a string whose lower-casing is the recognised verb `verb`, and
the operator is not rejected. -/
def Validated (test : Test) (verb : String) : Prop :=
  ∃ m, test.method = some (.prim (.str m)) ∧ toLowerCase m = verb ∧ verb ∈ verbs
    ∧ operatorRejected test = false

/-- The checks of lines 76-91 abort the test: `method` is absent or falsy, or is a
string that names no verb, or names a verb while the operator is rejected. -/
def AbortedByValidation (test : Test) : Prop :=
  truthyField test.method = false
    ∨ (∃ m, test.method = some (.prim (.str m)) ∧ toLowerCase m ∉ verbs)
    ∨ (∃ m, test.method = some (.prim (.str m)) ∧ toLowerCase m ∈ verbs
        ∧ operatorRejected test = true)

/-! ## Concrete tests -/

/-- The options `{"headers": {"X": 1}}`. -/
def headersX : JVal := .obj [("headers", .obj [("X", jnum 1)])]

/-- The body `{"a": 1}`. -/
def bodyA : JVal := .obj [("a", jnum 1)]

/-- The test `{method: "get", url: "http://x", expect: 0}`. -/
def expectZeroTest : Test :=
  { Test.empty with method := some (jstr "get"), url := some (jstr "http://x"),
                    expect := some (jnum 0) }

/-- The test `{method: "post", url: "http://x", body: "", options: {headers: {X: 1}}}`. -/
def emptyBodyTest : Test :=
  { Test.empty with method := some (jstr "post"), url := some (jstr "http://x"),
                    body := some (jstr ""), options := some headersX }

/-- Scenario C: `{method: "post", url: "http://x", body: {a: 1}, options: {headers: {X: 1}}}`. -/
def scenarioC : Test :=
  { Test.empty with method := some (jstr "post"), url := some (jstr "http://x"),
                    body := some bodyA, options := some headersX }

/-- Scenario E: `{method: "bogus", url: "http://x"}`. -/
def scenarioE : Test :=
  { Test.empty with method := some (jstr "bogus"), url := some (jstr "http://x") }

/-- The test `{method: "get", url: "http://x", operator: "", expect: 1}`. -/
def emptyOperatorTest : Test :=
  { Test.empty with method := some (jstr "get"), url := some (jstr "http://x"),
                    operator := some (jstr ""), expect := some (jnum 1) }

/-- The test `{method: "get", url: "http://x", operator: "between", expect: 1}`. -/
def unknownOperatorTest : Test :=
  { Test.empty with method := some (jstr "get"), url := some (jstr "http://x"),
                    operator := some (jstr "between"), expect := some (jnum 1) }

/-- The payload `{"id": 1}`. -/
def idOne : JVal := .obj [("id", jnum 1)]

/-- Scenario A: `{method: "get", url: "http://x/1", expect: {id: 1}}`. -/
def scenarioA : Test :=
  { Test.empty with method := some (jstr "get"), url := some (jstr "http://x/1"),
                    expect := some idOne }

/-- Scenario D: `{method: "get", url: "http://x", operator: "gt", expect: 5}`. -/
def scenarioD : Test :=
  { Test.empty with method := some (jstr "get"), url := some (jstr "http://x"),
                    operator := some (jstr "gt"), expect := some (jnum 5) }

/-- The payload `[1]`. -/
def arrayOne : JVal := .arr [jnum 1]

/-- The payload `{"id": 2}`. -/
def idTwo : JVal := .obj [("id", jnum 2)]

/-- The test `{method: "get", url: "http://x", operator: "gt", expect: {id: 1}}`. -/
def greaterThanIdOne : Test :=
  { Test.empty with method := some (jstr "get"), url := some (jstr "http://x"),
                    operator := some (jstr "gt"), expect := some idOne }

/-- The test `{method: "get", url: "http://x"}`. -/
def plainGet : Test :=
  { Test.empty with method := some (jstr "get"), url := some (jstr "http://x") }

/-- The test `{method: "get", url: "http://x", expect: "abd"}`. -/
def expectAbdTest : Test :=
  { Test.empty with method := some (jstr "get"), url := some (jstr "http://x"),
                    expect := some (jstr "abd") }

/-- The test `{method: "get", url: "http://x", operator: "lt", expect: false}`. -/
def expectFalseTest : Test :=
  { Test.empty with method := some (jstr "get"), url := some (jstr "http://x"),
                    operator := some (jstr "lt"), expect := some (.prim (.bool false)) }

/-- The test `{method: "get", url: "http://x", expect: "{\"id\":1}"}`, whose `expect`
is the string that serializes `{id: 1}`. -/
def expectSerializedIdOne : Test :=
  { Test.empty with method := some (jstr "get"), url := some (jstr "http://x"),
                    expect := some (jstr idOne.stringify) }

/-- The test `{method: 5, url: "http://x"}`. -/
def numericMethodTest : Test :=
  { Test.empty with method := some (jnum 5), url := some (jstr "http://x") }

/-- The test `{title: "first", method: "get", url: "http://x"}`. -/
def titledGet : Test :=
  { Test.empty with title := some (jstr "first"), method := some (jstr "get"),
                    url := some (jstr "http://x") }

/-- A transport that answers every call with the payload `data`. -/
def respond (data : JVal) : Transport := fun _ => .ok data

/-- A transport that fails every call with the message `message`. -/
def reject (message : String) : Transport := fun _ => .error message

/-- A transport that fails with `timeout` during test number 3 and answers `null`
during the others. -/
def timeoutOnThird : Nat → Transport :=
  fun i => if i = 3 then reject "timeout" else respond jnull

/-! ## Lemmas on the checks -/

theorem toLowerCase_empty : toLowerCase "" = "" := rfl

theorem truthy_of_verb {m : String} (h : toLowerCase m ∈ verbs) :
    truthyField (some (.prim (.str m))) = true := by
  by_cases hm : m = ""
  · subst hm
    rw [toLowerCase_empty] at h
    exact absurd h (by decide)
  · simp [truthyField, JVal.truthy, Prim.truthy, hm]

theorem truthy_of_isStructured {v : JVal} (h : v.isStructured = true) : v.truthy = true := by
  cases v <;> simp_all [JVal.isStructured, JVal.truthy]

/-- Run of a test whose method names a verb and whose operator is not rejected:
one transport call, then the callback of `then` or of `catch`. -/
theorem testing_of_validated (axios : Transport) (test : Test) (verb : String)
    (h : Validated test verb) :
    testing axios test =
      match axios (request verb test) with
      | .ok data =>
        { log := onResponse test data, calls := [request verb test], result := .ret 0 }
      | .error message =>
        { log := [.error (.text "Test failed!"), .error (.message message)]
          calls := [request verb test], result := .ret 1 } := by
  obtain ⟨m, hm, hl, hv, ho⟩ := h
  subst hl
  have ht := truthy_of_verb hv
  have hc : verbs.contains (toLowerCase m) = true := by simpa using hv
  unfold testing
  rw [hm]
  simp only [ht, hc, ho, Bool.not_true, Bool.false_eq_true, if_false]

/-- Run of a test whose `method` is absent or falsy (lines 76-79). -/
theorem testing_of_falsy_method (axios : Transport) (test : Test)
    (h : truthyField test.method = false) :
    testing axios test =
      { log := [.error (.text "Test aborted!"), .log (.text "\nNo \"method\" field.")]
        calls := [], result := .ret 1 } := by
  unfold testing
  simp only [h, Bool.not_false, if_true]

/-- Run of a test whose `method` is a string that names no verb (lines 80-84). -/
theorem testing_of_unknown_method (axios : Transport) (test : Test) (m : String)
    (hm : test.method = some (.prim (.str m))) (ht : truthyField test.method = true)
    (hv : toLowerCase m ∉ verbs) :
    testing axios test =
      { log := [.error (.text "Test aborted!"),
                .error (.text ("\nUnknowned Method : " ++ toUpperCase m))]
        calls := [], result := .ret 1 } := by
  have hc : verbs.contains (toLowerCase m) = false := by simpa using hv
  unfold testing
  simp only [ht, Bool.not_true, Bool.false_eq_true, if_false]
  rw [hm]
  simp only [hc, Bool.not_false, if_true]

/-- Run of a test whose `method` names a verb and whose operator is rejected
(lines 87-91). -/
theorem testing_of_rejected_operator (axios : Transport) (test : Test) (m : String)
    (hm : test.method = some (.prim (.str m))) (hv : toLowerCase m ∈ verbs)
    (ho : operatorRejected test = true) :
    testing axios test =
      { log := [.error (.text "Test aborted!"),
                .error (.text ("\nUnknowned Operator : " ++ fieldToStr test.operator))]
        calls := [], result := .ret 1 } := by
  have ht := truthy_of_verb hv
  have hc : verbs.contains (toLowerCase m) = true := by simpa using hv
  unfold testing
  rw [hm]
  simp only [ht, hc, ho, Bool.not_true, Bool.false_eq_true, if_false, if_true]

/-- Run of a test whose `method` is truthy and is not a string: reading
`toLowerCase` raises. -/
theorem testing_of_non_string_method (axios : Transport) (test : Test)
    (ht : truthyField test.method = true)
    (hm : ∀ m, test.method ≠ some (.prim (.str m))) :
    testing axios test = { log := [], calls := [], result := .typeError } := by
  unfold testing
  simp only [ht, Bool.not_true, Bool.false_eq_true, if_false]

/-- The callback of `then` never prints `Test aborted!`. -/
theorem onResponse_not_aborted (test : Test) (data : JVal) :
    (onResponse test data).any Entry.isAborted = false := by
  unfold onResponse
  cases test.expect with
  | none => rfl
  | some e =>
    cases ht : e.truthy <;> cases hc : comparison test data e <;>
      simp [ht, hc, Entry.isAborted, String.ext_iff]

/-- Callback of `then` when `expect` is truthy: the outcome is Succeeded when
the comparison holds and Failed when it does not. -/
theorem onResponse_of_truthy (test : Test) (data e : JVal) (he : test.expect = some e)
    (ht : e.truthy = true) :
    ((onResponse test data).any Entry.isSucceeded = comparison test data e)
      ∧ (((onResponse test data).any Entry.isFailed
            && (onResponse test data).any Entry.isExpected) = !comparison test data e)
      ∧ (onResponse test data).any Entry.isNoExpectWarning = false := by
  unfold onResponse
  rw [he]
  simp only [ht, if_true]
  cases hc : comparison test data e <;>
    simp [Entry.isSucceeded, Entry.isFailed, Entry.isExpected, Entry.isNoExpectWarning]

/-- Callback of `then` when `expect` is absent or falsy: the warning, Succeeded
and the payload, whatever the payload. -/
theorem onResponse_of_falsy (test : Test) (data : JVal) (he : truthyField test.expect = false) :
    onResponse test data =
      [ .warn (.text "[WARN] No \"expect\" test. \n"), .log (.text "Test Succeeded!\n"),
        .log (.text "Response :"), .log (.value data) ] := by
  unfold onResponse
  cases hx : test.expect with
  | none => rfl
  | some e =>
    rw [hx] at he
    have : e.truthy = false := by simpa [truthyField] using he
    simp [this]

/-- A validated test invokes the transport exactly once, with the arguments of
lines 94-105, and is not reported aborted. -/
theorem testing_calls_of_validated (axios : Transport) (test : Test) (verb : String)
    (h : Validated test verb) :
    (testing axios test).calls = [request verb test] ∧ (testing axios test).aborted = false := by
  rw [testing_of_validated axios test verb h]
  cases axios (request verb test) with
  | error e => exact ⟨rfl, rfl⟩
  | ok data => exact ⟨rfl, onResponse_not_aborted test data⟩

/-- Run of a validated test that the transport answers with `data`. -/
theorem testing_of_response (axios : Transport) (test : Test) (verb : String) (data : JVal)
    (h : Validated test verb) (hr : axios (request verb test) = .ok data) :
    testing axios test =
      { log := onResponse test data, calls := [request verb test], result := .ret 0 } := by
  rw [testing_of_validated axios test verb h, hr]

/-- The operator `==` holds between a primitive value and itself. -/
theorem looseEq_self (x : Prim) : looseEq x x = true := by
  cases x <;> simp [looseEq]

/-- A property that is absent is not rejected as an operator. -/
theorem operatorRejected_of_none (test : Test) (h : test.operator = none) :
    operatorRejected test = false := by
  simp [operatorRejected, h, truthyField]

/-- One of the six operators is not rejected. -/
theorem operatorRejected_of_mem (test : Test) (op : String) (h : test.operator = some (jstr op))
    (hop : op ∈ operators) : operatorRejected test = false := by
  simp [operatorRejected, h, jstr, includesStr, hop]

/-- Without operator the comparison is `==` on the normalized values. -/
theorem comparison_of_none (test : Test) (data e : JVal) (h : test.operator = none) :
    comparison test data e = looseEq (normalize data) (normalize e) := by
  simp [comparison, h, truthyField]

/-- The comparison selected by each of the six operators. -/
theorem comparison_of_operator (test : Test) (data e : JVal) (op : String)
    (h : test.operator = some (jstr op)) (hop : op ∈ operators) :
    comparison test data e =
      if op = "eq" then looseEq (normalize data) (normalize e)
      else if op = "ne" then !looseEq (normalize data) (normalize e)
      else if op = "gt" then jsGt (normalize data) (normalize e)
      else if op = "lt" then jsLt (normalize data) (normalize e)
      else if op = "gte" then jsGe (normalize data) (normalize e)
      else jsLe (normalize data) (normalize e) := by
  have hne : op ≠ "" := by
    rintro rfl
    exact absurd hop (by decide)
  have ht : truthyField (some (jstr op)) = true := by
    simp [truthyField, jstr, JVal.truthy, Prim.truthy, hne]
  have hl : ∀ lit, looseEqStr (some (jstr op)) lit = decide (op = lit) := by
    intro lit
    simp only [looseEqStr, jstr, looseEq]
    by_cases hx : op = lit <;> simp [hx]
  unfold comparison
  rw [h]
  simp only [ht, hl, Bool.not_true, Bool.false_or, decide_eq_true_eq]

/-- A number is normalized to itself. -/
theorem normalize_jnum (n : Int) : normalize (jnum n) = .num n := rfl

/-- On two numbers `<` is the order of the integers. -/
theorem lessThan_num (a b : Int) : lessThan (.num a) (.num b) = some (decide (a < b)) := by
  simp [lessThan, Prim.toNumber, Num.lt, alignDec]

/-! ## C1 -/

/-- C1, at the test `{method: "get", url: "http://x", expect: 0}` answered with the
payload 5: `expect` is present and `5 == 0` does not hold, yet the run takes
the branch of line 154, prints the warning that there is no `expect` and
reports Succeeded, not Failed. -/
theorem testing_expect_zero_reports_succeeded :
    expectZeroTest.expect = some (jnum 0)
      ∧ Validated expectZeroTest "get"
      ∧ comparison expectZeroTest (jnum 5) (jnum 0) = false
      ∧ (testing (respond (jnum 5)) expectZeroTest).succeeded = true
      ∧ (testing (respond (jnum 5)) expectZeroTest).failed = false
      ∧ (testing (respond (jnum 5)) expectZeroTest).log.any Entry.isNoExpectWarning = true
      ∧ (testing (respond (jnum 5)) expectZeroTest).result = .ret 0 := by
  refine ⟨rfl, ⟨"get", rfl, by decide, by decide, by decide⟩, by decide, by decide, by decide,
    by decide, by decide⟩

/-! ## C2 -/

/-- C2 as stated fails at `{method: "post", url: "http://x", body: "", options:
{headers: {X: 1}}}`: `body` is present, and the transport is called with
`(url, options, null)`, not with `(url, body, options)`. -/
theorem testing_empty_body_call :
    emptyBodyTest.body = some (jstr "")
      ∧ emptyBodyTest.options = some headersX
      ∧ Validated emptyBodyTest "post"
      ∧ (testing (respond jnull) emptyBodyTest).calls
          = [{ verb := "post", url := some (jstr "http://x"), second := headersX, third := jnull }]
      ∧ (testing (respond jnull) emptyBodyTest).calls
          ≠ [{ verb := "post", url := some (jstr "http://x"), second := jstr "",
               third := headersX }] := by
  have hv : Validated emptyBodyTest "post" := ⟨"post", rfl, by decide, by decide, by decide⟩
  refine ⟨rfl, rfl, hv, ?_, ?_⟩
  · rw [testing_of_validated _ _ _ hv]
    rfl
  · rw [testing_of_validated _ _ _ hv]
    simp [respond, request, emptyBodyTest, Test.empty, truthyValue, JVal.truthy, Prim.truthy,
      jstr, headersX, jnull]

/-- C2, amended: a test that passes validation invokes the transport operation
named by the lower-cased `method` exactly once, with `(url, body, options)` when
`body` and `options` are truthy, `(url, body, null)` when `body` is truthy and
`options` is not, `(url, options, null)` when `body` is absent or falsy and
`options` is truthy, `(url, null, null)` when neither is truthy; the third
argument is non-null only when both are truthy. Every object and array is
truthy. -/
theorem testing_request_arguments (axios : Transport) (test : Test) (verb : String)
    (h : Validated test verb) :
    (∀ b o, test.body = some b → b.truthy = true → test.options = some o → o.truthy = true →
        (testing axios test).calls
          = [{ verb := verb, url := test.url, second := b, third := o }])
      ∧ (∀ b, test.body = some b → b.truthy = true → truthyField test.options = false →
        (testing axios test).calls
          = [{ verb := verb, url := test.url, second := b, third := jnull }])
      ∧ (∀ o, truthyField test.body = false → test.options = some o → o.truthy = true →
        (testing axios test).calls
          = [{ verb := verb, url := test.url, second := o, third := jnull }])
      ∧ (truthyField test.body = false → truthyField test.options = false →
        (testing axios test).calls
          = [{ verb := verb, url := test.url, second := jnull, third := jnull }])
      ∧ (∀ c, c ∈ (testing axios test).calls → c.third ≠ jnull →
          truthyField test.body = true ∧ truthyField test.options = true)
      ∧ (∀ v : JVal, v.isStructured = true → v.truthy = true) := by
  have hcalls : (testing axios test).calls = [request verb test] := by
    rw [testing_of_validated axios test verb h]
    cases axios (request verb test) <;> rfl
  rw [hcalls]
  refine ⟨?_, ?_, ?_, ?_, ?_, fun v hv => truthy_of_isStructured hv⟩
  · intro b o hb tb ho tp
    simp [request, truthyValue, hb, tb, ho, tp]
  · intro b hb tb ho
    cases hopt : test.options with
    | none => simp [request, truthyValue, hb, tb, hopt]
    | some o =>
      have : o.truthy = false := by simpa [truthyField, hopt] using ho
      simp [request, truthyValue, hb, tb, hopt, this]
  · intro o hb ho tp
    cases hbody : test.body with
    | none => simp [request, truthyValue, hbody, ho, tp]
    | some b =>
      have : b.truthy = false := by simpa [truthyField, hbody] using hb
      simp [request, truthyValue, hbody, this, ho, tp]
  · intro hb ho
    cases hbody : test.body with
    | none =>
      cases hopt : test.options with
      | none => simp [request, truthyValue, hbody, hopt]
      | some o =>
        have : o.truthy = false := by simpa [truthyField, hopt] using ho
        simp [request, truthyValue, hbody, hopt, this]
    | some b =>
      have tb : b.truthy = false := by simpa [truthyField, hbody] using hb
      cases hopt : test.options with
      | none => simp [request, truthyValue, hbody, hopt, tb]
      | some o =>
        have : o.truthy = false := by simpa [truthyField, hopt] using ho
        simp [request, truthyValue, hbody, hopt, this, tb]
  · intro c hc hthird
    simp only [List.mem_singleton] at hc
    subst hc
    cases hbody : test.body with
    | none => simp [request, truthyValue, hbody] at hthird
    | some b =>
      cases hopt : test.options with
      | none => simp [request, truthyValue, hbody, hopt] at hthird
      | some o =>
        cases tb : b.truthy <;> cases tp : o.truthy <;>
          simp [request, truthyValue, hbody, hopt, tb, tp, truthyField] at hthird ⊢

/-- Scenario C: the transport is invoked as `(url, {a: 1}, {headers: {X: 1}})`. -/
theorem testing_request_arguments_witness :
    Validated scenarioC "post"
      ∧ (testing (respond jnull) scenarioC).calls
          = [{ verb := "post", url := some (jstr "http://x"), second := bodyA,
               third := headersX }] :=
  ⟨⟨"post", rfl, by decide, by decide, by decide⟩,
   (testing_request_arguments (respond jnull) scenarioC "post"
      ⟨"post", rfl, by decide, by decide, by decide⟩).1 bodyA headersX rfl rfl rfl rfl⟩

/-! ## C3 -/

/-- C3: when `method` is missing, or is a string whose lower-casing is not one of
get, put, post, delete, patch, the run returns status 1, reports the abort and
never invokes the transport; and every string whose lower-casing is one of the
five verbs passes the method check: the run goes on to the operator check, and
from there to the transport call under the lower-cased verb. -/
theorem testing_method_validation (axios : Transport) (test : Test) :
    ((test.method = none ∨ ∃ m, test.method = some (.prim (.str m)) ∧ toLowerCase m ∉ verbs) →
        (testing axios test).result = .ret 1 ∧ (testing axios test).calls = []
          ∧ (testing axios test).aborted = true)
      ∧ (∀ m, test.method = some (.prim (.str m)) → toLowerCase m ∈ verbs →
          (operatorRejected test = false →
            (testing axios test).calls = [request (toLowerCase m) test]
              ∧ (testing axios test).aborted = false)
          ∧ (operatorRejected test = true →
            (testing axios test).log = [.error (.text "Test aborted!"),
              .error (.text ("\nUnknowned Operator : " ++ fieldToStr test.operator))])) := by
  constructor
  · rintro (h | ⟨m, hm, hv⟩)
    · rw [testing_of_falsy_method axios test (by rw [h]; rfl)]
      exact ⟨rfl, rfl, rfl⟩
    · by_cases ht : truthyField test.method = true
      · rw [testing_of_unknown_method axios test m hm ht hv]
        exact ⟨rfl, rfl, rfl⟩
      · rw [testing_of_falsy_method axios test (by simpa using ht)]
        exact ⟨rfl, rfl, rfl⟩
  · intro m hm hv
    constructor
    · intro ho
      rw [testing_of_validated axios test (toLowerCase m) ⟨m, hm, rfl, hv, ho⟩]
      cases axios (request (toLowerCase m) test) with
      | error e => exact ⟨rfl, rfl⟩
      | ok data => exact ⟨rfl, onResponse_not_aborted test data⟩
    · intro ho
      rw [testing_of_rejected_operator axios test m hm hv ho]

/-- Scenario E, `{method: "bogus", url: "http://x"}`, is aborted without a transport
call, and the method `GeT` of a test without operator passes the method check. -/
theorem testing_method_validation_witness :
    (∃ m, scenarioE.method = some (.prim (.str m)) ∧ toLowerCase m ∉ verbs)
      ∧ ((testing (respond jnull) scenarioE).result = .ret 1
          ∧ (testing (respond jnull) scenarioE).calls = []
          ∧ (testing (respond jnull) scenarioE).aborted = true)
      ∧ toLowerCase "GeT" ∈ verbs
      ∧ (testing (respond jnull) { scenarioE with method := some (jstr "GeT") }).calls
          = [request "get" { scenarioE with method := some (jstr "GeT") }] :=
  ⟨⟨"bogus", rfl, by decide⟩,
   (testing_method_validation (respond jnull) scenarioE).1 (Or.inr ⟨"bogus", rfl, by decide⟩),
   by decide,
   (((testing_method_validation (respond jnull)
      { scenarioE with method := some (jstr "GeT") }).2 "GeT" rfl (by decide)).1 rfl).1⟩

/-! ## C4 -/

/-- C4, at the test `{method: "get", url: "http://x", operator: "", expect: 1}`
answered with the payload 1: the operator is present, is a string and is none of
the six, yet the guard of line 87 tests its truthiness and skips the check. The
run is not aborted: the transport is called once, the response is compared with
`==`, Succeeded is reported and the status is 0, where the comment of line 86
has a present operator checked. -/
theorem testing_empty_operator_not_aborted :
    emptyOperatorTest.operator = some (jstr "")
      ∧ "" ∉ operators
      ∧ toLowerCase "get" ∈ verbs
      ∧ operatorRejected emptyOperatorTest = false
      ∧ (testing (respond (jnum 1)) emptyOperatorTest).calls.length = 1
      ∧ (testing (respond (jnum 1)) emptyOperatorTest).aborted = false
      ∧ (testing (respond (jnum 1)) emptyOperatorTest).succeeded = true
      ∧ (testing (respond (jnum 1)) emptyOperatorTest).result = .ret 0 := by
  refine ⟨rfl, by decide, by decide, by decide, by decide, by decide, by decide, by decide⟩

/-- The operator check where line 87 applies it: in a test with a recognised
method, a truthy `operator` that is not exactly one of eq, ne, gt, gte, lt, lte
aborts the run, which returns status 1 and never invokes the transport; a test
with no `operator` property is not aborted, invokes the transport and compares
with `==`. -/
theorem testing_operator_validation (axios : Transport) (test : Test) (m : String)
    (hm : test.method = some (.prim (.str m))) (hv : toLowerCase m ∈ verbs) :
    (∀ v, test.operator = some v → v.truthy = true →
        (∀ s, s ∈ operators → v ≠ .prim (.str s)) →
        (testing axios test).result = .ret 1 ∧ (testing axios test).calls = []
          ∧ (testing axios test).aborted = true)
      ∧ (test.operator = none →
          (testing axios test).calls = [request (toLowerCase m) test]
            ∧ (testing axios test).aborted = false
            ∧ ∀ data e, comparison test data e = looseEq (normalize data) (normalize e)) := by
  constructor
  · intro v hop htr hnot
    have hinc : includesStr operators (some v) = false := by
      cases v with
      | prim p =>
        cases p with
        | str s =>
          have : s ∉ operators := fun hs => hnot s hs rfl
          simpa [includesStr] using this
        | _ => rfl
      | _ => rfl
    have hrej : operatorRejected test = true := by
      simp [operatorRejected, hop, truthyField, htr, hinc]
    rw [testing_of_rejected_operator axios test m hm hv hrej]
    exact ⟨rfl, rfl, rfl⟩
  · intro hop
    have hrej : operatorRejected test = false := by
      simp [operatorRejected, hop, truthyField]
    have hval : Validated test (toLowerCase m) := ⟨m, hm, rfl, hv, hrej⟩
    exact ⟨(testing_calls_of_validated axios test _ hval).1,
      (testing_calls_of_validated axios test _ hval).2,
      fun data e => comparison_of_none test data e hop⟩

/-- The operator `between` aborts the run; the same test without `operator` calls
the transport. -/
theorem testing_operator_validation_witness :
    toLowerCase "get" ∈ verbs
      ∧ ((testing (respond (jnum 1)) unknownOperatorTest).result = .ret 1
          ∧ (testing (respond (jnum 1)) unknownOperatorTest).calls = []
          ∧ (testing (respond (jnum 1)) unknownOperatorTest).aborted = true) :=
  ⟨by decide,
   (testing_operator_validation (respond (jnum 1)) unknownOperatorTest "get" rfl
      (by decide)).1 (jstr "between") rfl (by decide)
      (fun s hs => by
        intro h
        have h2 : "between" = s := by simpa [jstr] using h
        subst h2
        exact absurd hs (by decide))⟩

/-! ## C5 -/

/-- C5, round trip: a test with a recognised method, no `operator` and `expect`
equal to the payload `p` the transport answers with has outcome Succeeded,
whatever `p`; it is not reported Failed and the status is 0. -/
theorem testing_round_trip (axios : Transport) (test : Test) (m : String) (p : JVal)
    (hm : test.method = some (.prim (.str m))) (hv : toLowerCase m ∈ verbs)
    (hop : test.operator = none) (he : test.expect = some p)
    (hr : axios (request (toLowerCase m) test) = .ok p) :
    (testing axios test).succeeded = true ∧ (testing axios test).failed = false
      ∧ (testing axios test).result = .ret 0 := by
  have hval : Validated test (toLowerCase m) :=
    ⟨m, hm, rfl, hv, operatorRejected_of_none test hop⟩
  rw [testing_of_response axios test _ p hval hr]
  cases ht : p.truthy with
  | true =>
    have hc : comparison test p p = true := by
      rw [comparison_of_none test p p hop]
      exact looseEq_self _
    have h := onResponse_of_truthy test p p he ht
    rw [hc] at h
    exact ⟨h.1, by simpa [Run.failed] using h.2.1, rfl⟩
  | false =>
    have hf : truthyField test.expect = false := by simp [he, truthyField, ht]
    rw [onResponse_of_falsy test p hf]
    exact ⟨rfl, rfl, rfl⟩

/-- Scenario A: `expect` is `{id: 1}` and the response is `{id: 1}`. -/
theorem testing_round_trip_witness :
    toLowerCase "get" ∈ verbs
      ∧ (testing (respond idOne) scenarioA).succeeded = true
      ∧ (testing (respond idOne) scenarioA).failed = false
      ∧ (testing (respond idOne) scenarioA).result = .ret 0 :=
  ⟨by decide, testing_round_trip (respond idOne) scenarioA "get" idOne rfl (by decide) rfl rfl rfl⟩

/-! ## C6 -/

/-- C6: with an integer response `r`, a non-zero integer `expect` `e` and one of the
six operators, a validated test has outcome Succeeded exactly when `r op e` holds in
the order of the integers, and outcome Failed exactly when it does not. -/
theorem testing_integer_comparison (axios : Transport) (test : Test) (m op : String)
    (r e : Int) (hm : test.method = some (.prim (.str m))) (hv : toLowerCase m ∈ verbs)
    (hop : test.operator = some (jstr op)) (hmem : op ∈ operators)
    (he : test.expect = some (jnum e)) (hne : e ≠ 0)
    (hr : axios (request (toLowerCase m) test) = .ok (jnum r)) :
    (op = "eq" → ((testing axios test).succeeded = true ↔ r = e))
      ∧ (op = "ne" → ((testing axios test).succeeded = true ↔ r ≠ e))
      ∧ (op = "gt" → ((testing axios test).succeeded = true ↔ r > e))
      ∧ (op = "gte" → ((testing axios test).succeeded = true ↔ r ≥ e))
      ∧ (op = "lt" → ((testing axios test).succeeded = true ↔ r < e))
      ∧ (op = "lte" → ((testing axios test).succeeded = true ↔ r ≤ e))
      ∧ (testing axios test).failed = !(testing axios test).succeeded := by
  have hval : Validated test (toLowerCase m) :=
    ⟨m, hm, rfl, hv, operatorRejected_of_mem test op hop hmem⟩
  have ht : (jnum e).truthy = true := by simp [jnum, JVal.truthy, Prim.truthy, hne]
  have h := onResponse_of_truthy test (jnum r) (jnum e) he ht
  have hs : (testing axios test).succeeded = comparison test (jnum r) (jnum e) := by
    rw [testing_of_response axios test _ (jnum r) hval hr]
    exact h.1
  have hf : (testing axios test).failed = !comparison test (jnum r) (jnum e) := by
    rw [testing_of_response axios test _ (jnum r) hval hr]
    exact h.2.1
  have hc := comparison_of_operator test (jnum r) (jnum e) op hop hmem
  simp only [normalize_jnum] at hc
  rw [hf, hs, hc]
  refine ⟨?_, ?_, ?_, ?_, ?_, ?_, rfl⟩ <;> rintro rfl
  · simp [looseEq]
  · simp [looseEq]
  · simp [jsGt, lessThan_num]
  · simp [jsGe, lessThan_num]
  · simp [jsLt, lessThan_num]
  · simp [jsLe, lessThan_num]

/-- Scenario D: with operator gt and `expect` 5 the response 10 gives Succeeded. -/
theorem testing_integer_comparison_witness :
    toLowerCase "get" ∈ verbs ∧ "gt" ∈ operators ∧ (5 : Int) ≠ 0
      ∧ ((testing (respond (jnum 10)) scenarioD).succeeded = true ↔ (10 : Int) > 5) :=
  ⟨by decide, by decide, by decide,
   (testing_integer_comparison (respond (jnum 10)) scenarioD "get" "gt" 10 5 rfl (by decide) rfl
      (by decide) rfl (by decide) rfl).2.2.1 rfl⟩

/-! ## C7 -/

/-- Trimming keeps a text that starts and ends with other than white space. -/
theorem trimWhiteSpace_of_ends (c d : Char) (l : List Char) (hc : isStrWhiteSpace c = false)
    (hd : isStrWhiteSpace d = false) : trimWhiteSpace (c :: (l ++ [d])) = c :: (l ++ [d]) := by
  simp [trimWhiteSpace, List.dropWhile_cons, hc, hd]

/-- A text that starts with a bracket is no numeral. -/
theorem numericLiteral_bracket (rest : List Char) : numericLiteral ('[' :: rest) = .nan := by
  simp [numericLiteral, signedDecimal, unsignedDecimal, List.takeWhile_cons, List.dropWhile_cons]

/-- A text that starts with a brace is no numeral. -/
theorem numericLiteral_brace (rest : List Char) : numericLiteral ('\x7b' :: rest) = .nan := by
  simp [numericLiteral, signedDecimal, unsignedDecimal, List.takeWhile_cons, List.dropWhile_cons]

/-- The serialization of an array or object converts to `NaN`. -/
theorem stringToNumber_stringify (v : JVal) (h : v.isStructured = true) :
    stringToNumber v.stringify = .nan := by
  cases v with
  | prim p => simp [JVal.isStructured] at h
  | arr xs =>
    have hd : (JVal.arr xs).stringify.data = '[' :: ((stringifyElems xs).data ++ [']']) := by
      simp [JVal.stringify, String.data_append]
    rw [stringToNumber, hd, trimWhiteSpace_of_ends _ _ _ (by decide) (by decide)]
    exact numericLiteral_bracket _
  | obj kvs =>
    have hd : (JVal.obj kvs).stringify.data
        = '\x7b' :: ((stringifyProps kvs).data ++ ['\x7d']) := by
      simp [JVal.stringify, String.data_append]
    rw [stringToNumber, hd, trimWhiteSpace_of_ends _ _ _ (by decide) (by decide)]
    exact numericLiteral_brace _

/-- An array or object is normalized to its serialization. -/
theorem normalize_of_isStructured (v : JVal) (h : v.isStructured = true) :
    normalize v = .str v.stringify := by
  cases v with
  | prim p => simp [JVal.isStructured] at h
  | arr xs => rfl
  | obj kvs => rfl

/-- A serialization facing a number or a boolean: `<` is undefined both ways. -/
theorem lessThan_stringify (v : JVal) (h : v.isStructured = true) (x : Prim)
    (hx : ∀ s, x ≠ .str s) :
    lessThan (.str v.stringify) x = none ∧ lessThan x (.str v.stringify) = none := by
  have hn := stringToNumber_stringify v h
  cases x with
  | str s => exact absurd rfl (hx s)
  | null => simp [lessThan, Prim.toNumber, hn, Num.lt]
  | bool b => cases b <;> simp [lessThan, Prim.toNumber, hn, Num.lt]
  | num n => simp [lessThan, Prim.toNumber, hn, Num.lt]

/-- C7 as stated fails at `{method: "get", url: "http://x", operator: "gt", expect: 5}`
answered with the payload `[1]`: the response is structured and normalized to the
string `[1]`, which is greater than the text `5` of the expected value in the
lexicographic order, yet the outcome is Failed: the string faces a number and is
compared as a number. -/
theorem testing_array_against_number :
    arrayOne.isStructured = true
      ∧ normalize arrayOne = .str "[1]"
      ∧ normalize (jnum 5) = .num 5
      ∧ lexLt (utf16 (Prim.num 5).toStr) (utf16 "[1]") = true
      ∧ jsGt (.str "[1]") (.str (Prim.num 5).toStr) = true
      ∧ (testing (respond arrayOne) scenarioD).succeeded = false
      ∧ (testing (respond arrayOne) scenarioD).failed = true := by
  refine ⟨rfl, by decide, rfl, by decide, by decide, by decide, by decide⟩

/-- C7, amended: in a validated test with operator gt, gte, lt or lte and a truthy
`expect`, where the response or `expect` is an array or object: when both
normalized values are strings the outcome is that of the lexicographic comparison
of the two strings by code units; when the other normalized value is a number or
a boolean the comparison is numeric, the serialization converts to `NaN` and the
outcome is Failed under each of the four operators. -/
theorem testing_structured_order (axios : Transport) (test : Test) (m op : String)
    (data e : JVal) (hm : test.method = some (.prim (.str m))) (hv : toLowerCase m ∈ verbs)
    (hop : test.operator = some (jstr op)) (hmem : op ∈ ["gt", "gte", "lt", "lte"])
    (he : test.expect = some e) (ht : e.truthy = true)
    (hr : axios (request (toLowerCase m) test) = .ok data)
    (hs : data.isStructured = true ∨ e.isStructured = true) :
    (∀ a b, normalize data = .str a → normalize e = .str b →
        (op = "gt" → ((testing axios test).succeeded = true ↔ lexLt (utf16 b) (utf16 a) = true))
        ∧ (op = "gte" →
            ((testing axios test).succeeded = true ↔ lexLt (utf16 a) (utf16 b) = false))
        ∧ (op = "lt" → ((testing axios test).succeeded = true ↔ lexLt (utf16 a) (utf16 b) = true))
        ∧ (op = "lte" →
            ((testing axios test).succeeded = true ↔ lexLt (utf16 b) (utf16 a) = false)))
      ∧ (((∀ s, normalize data ≠ .str s) ∨ (∀ s, normalize e ≠ .str s)) →
          (testing axios test).succeeded = false ∧ (testing axios test).failed = true)
      ∧ (testing axios test).failed = !(testing axios test).succeeded := by
  have hmem6 : op ∈ operators := by
    simp only [List.mem_cons, List.mem_singleton, List.not_mem_nil, or_false] at hmem
    rcases hmem with h | h | h | h <;> subst h <;> decide
  have hval : Validated test (toLowerCase m) :=
    ⟨m, hm, rfl, hv, operatorRejected_of_mem test op hop hmem6⟩
  have h := onResponse_of_truthy test data e he ht
  have hsucc : (testing axios test).succeeded = comparison test data e := by
    rw [testing_of_response axios test _ data hval hr]
    exact h.1
  have hfail : (testing axios test).failed = !comparison test data e := by
    rw [testing_of_response axios test _ data hval hr]
    exact h.2.1
  have hc := comparison_of_operator test data e op hop hmem6
  rw [hfail, hsucc]
  refine ⟨?_, ?_, rfl⟩
  · intro a b ha hb
    rw [hc, ha, hb]
    refine ⟨?_, ?_, ?_, ?_⟩ <;> rintro rfl
    · simp [jsGt, lessThan]
    · simp [jsGe, lessThan]
    · simp [jsLt, lessThan]
    · simp [jsLe, lessThan]
  · intro hnot
    have hund : lessThan (normalize data) (normalize e) = none
        ∧ lessThan (normalize e) (normalize data) = none := by
      rcases hs with hd | hd
      · rcases hnot with hn | hn
        · exact absurd (normalize_of_isStructured data hd) (hn _)
        · rw [normalize_of_isStructured data hd]
          exact lessThan_stringify data hd _ hn
      · rcases hnot with hn | hn
        · rw [normalize_of_isStructured e hd]
          exact (lessThan_stringify e hd _ hn).symm
        · exact absurd (normalize_of_isStructured e hd) (hn _)
    have hfalse : comparison test data e = false := by
      rw [hc]
      simp only [List.mem_cons, List.mem_singleton, List.not_mem_nil, or_false] at hmem
      rcases hmem with h | h | h | h <;> subst h <;>
        simp [jsGt, jsGe, jsLt, jsLe, hund.1, hund.2]
    simp [hfalse]

/-- With operator gt and `expect` `{id: 1}`, the response `{id: 2}` gives Succeeded,
as the order of the two serializations has it. -/
theorem testing_structured_order_witness :
    toLowerCase "get" ∈ verbs ∧ "gt" ∈ ["gt", "gte", "lt", "lte"] ∧ idOne.truthy = true
      ∧ idTwo.isStructured = true
      ∧ ((testing (respond idTwo) greaterThanIdOne).succeeded = true
          ↔ lexLt (utf16 "\x7b\"id\":1\x7d") (utf16 "\x7b\"id\":2\x7d") = true) :=
  ⟨by decide, by decide, rfl, rfl,
   ((testing_structured_order (respond idTwo) greaterThanIdOne "get" "gt" idTwo idOne rfl
      (by decide) rfl (by decide) rfl rfl rfl (Or.inl rfl)).1
      "\x7b\"id\":2\x7d" "\x7b\"id\":1\x7d" (by decide) (by decide)).1 rfl⟩

/-! ## C8 -/

/-- C8 as stated fails at `null`: `typeof null` is `"object"`, so the scalar `null`
is not returned unchanged but serialized to the string `null`. -/
theorem normalize_null_is_string :
    jnull.isStructured = false
      ∧ jnull.typeofObject = true
      ∧ normalize jnull = .str "null"
      ∧ JVal.prim (normalize jnull) ≠ jnull := by
  refine ⟨rfl, rfl, rfl, ?_⟩
  simp [normalize, jnull, JVal.typeofObject, JVal.stringify, Prim.stringify]

/-- C8, amended: normalization returns every scalar other than `null` unchanged,
returns the string `null` for `null` and the serialization, a string, for every
array and object; and normalizing a normalized value gives the same value as
normalizing once. -/
theorem normalize_idempotent :
    (∀ p : Prim, p ≠ .null → normalize (.prim p) = p)
      ∧ normalize (.prim .null) = .str "null"
      ∧ (∀ v : JVal, v.isStructured = true → normalize v = .str v.stringify)
      ∧ (∀ v : JVal, normalize (.prim (normalize v)) = normalize v) := by
  have hp : ∀ p : Prim, p ≠ .null → normalize (.prim p) = p := by
    intro p hp
    cases p with
    | null => exact absurd rfl hp
    | bool b => rfl
    | num n => rfl
    | str s => rfl
  refine ⟨hp, rfl, normalize_of_isStructured, ?_⟩
  intro v
  apply hp
  cases v with
  | prim p => cases p <;> simp [normalize, JVal.typeofObject]
  | arr xs => simp [normalize, JVal.typeofObject]
  | obj kvs => simp [normalize, JVal.typeofObject]

/-- The number 5 is returned unchanged, the array `[1]` becomes the string `[1]`,
which is returned unchanged in turn. -/
theorem normalize_idempotent_witness :
    Prim.num 5 ≠ Prim.null ∧ normalize (.prim (.num 5)) = .num 5
      ∧ normalize (.prim (normalize arrayOne)) = normalize arrayOne :=
  ⟨by decide, normalize_idempotent.1 (.num 5) (by decide), normalize_idempotent.2.2.2 arrayOne⟩

/-! ## C9 -/

/-- A validated test has a truthy string for method. -/
theorem method_of_validated {test : Test} {verb : String} (h : Validated test verb) :
    truthyField test.method = true ∧ ∃ m, test.method = some (.prim (.str m))
      ∧ toLowerCase m = verb ∧ toLowerCase m ∈ verbs ∧ operatorRejected test = false := by
  obtain ⟨m, hm, hl, hv, ho⟩ := h
  subst hl
  exact ⟨by rw [hm]; exact truthy_of_verb hv, m, hm, rfl, hv, ho⟩

/-- C9: the status is 0 exactly when the test passed validation and the transport
answered, whatever the comparison then gave, and is 1 exactly when validation
aborted the test or the transport failed. -/
theorem testing_status (axios : Transport) (test : Test) :
    ((testing axios test).result = .ret 0 ↔
        ∃ verb data, Validated test verb ∧ axios (request verb test) = .ok data)
      ∧ ((testing axios test).result = .ret 1 ↔
        (AbortedByValidation test
          ∨ ∃ verb message, Validated test verb ∧ axios (request verb test) = .error message))
      ∧ (AbortedByValidation test → (testing axios test).calls = []) := by
  by_cases ht : truthyField test.method = true
  · by_cases hs : ∃ m, test.method = some (.prim (.str m))
    · obtain ⟨m, hm⟩ := hs
      have hinj : ∀ m2, test.method = some (.prim (.str m2)) → m2 = m := by
        intro m2 h2
        rw [hm] at h2
        simpa using h2.symm
      by_cases hv : toLowerCase m ∈ verbs
      · cases ho : operatorRejected test with
        | true =>
          rw [testing_of_rejected_operator axios test m hm hv ho]
          refine ⟨⟨fun h => by simp at h, ?_⟩, ⟨fun _ => ?_, fun _ => rfl⟩, fun _ => rfl⟩
          · rintro ⟨verb, data, hval, _⟩
            obtain ⟨_, m2, _, _, _, ho2⟩ := method_of_validated hval
            rw [ho] at ho2
            exact absurd ho2 (by decide)
          · exact Or.inl (Or.inr (Or.inr ⟨m, hm, hv, ho⟩))
        | false =>
          have hval : Validated test (toLowerCase m) := ⟨m, hm, rfl, hv, ho⟩
          have hverb : ∀ verb, Validated test verb → verb = toLowerCase m := by
            intro verb h
            obtain ⟨_, m2, hm2, hl2, _, _⟩ := method_of_validated h
            rw [← hl2, hinj m2 hm2]
          have hnab : ¬ AbortedByValidation test := by
            rintro (h | ⟨m2, hm2, hv2⟩ | ⟨m2, hm2, _, ho2⟩)
            · rw [ht] at h
              exact absurd h (by decide)
            · rw [hinj m2 hm2] at hv2
              exact hv2 hv
            · rw [ho] at ho2
              exact absurd ho2 (by decide)
          rw [testing_of_validated axios test _ hval]
          cases hr : axios (request (toLowerCase m) test) with
          | ok data =>
            refine ⟨⟨fun _ => ⟨_, data, hval, hr⟩, fun _ => rfl⟩, ⟨fun h => by simp at h, ?_⟩,
              fun h => absurd h hnab⟩
            rintro (h | ⟨verb, message, h, hr2⟩)
            · exact absurd h hnab
            · rw [hverb verb h, hr] at hr2
              exact absurd hr2 (by simp)
          | error message =>
            refine ⟨⟨fun h => by simp at h, ?_⟩,
              ⟨fun _ => Or.inr ⟨_, message, hval, hr⟩, fun _ => rfl⟩, fun h => absurd h hnab⟩
            rintro ⟨verb, data, h, hr2⟩
            rw [hverb verb h, hr] at hr2
            exact absurd hr2 (by simp)
      · rw [testing_of_unknown_method axios test m hm ht hv]
        refine ⟨⟨fun h => by simp at h, ?_⟩, ⟨fun _ => ?_, fun _ => rfl⟩, fun _ => rfl⟩
        · rintro ⟨verb, data, hval, _⟩
          obtain ⟨_, m2, hm2, _, hv2, _⟩ := method_of_validated hval
          rw [hinj m2 hm2] at hv2
          exact absurd hv2 hv
        · exact Or.inl (Or.inr (Or.inl ⟨m, hm, hv⟩))
    · have hns : ∀ m, test.method ≠ some (.prim (.str m)) := fun m hm => hs ⟨m, hm⟩
      rw [testing_of_non_string_method axios test ht hns]
      refine ⟨⟨fun h => by simp at h, ?_⟩, ⟨fun h => by simp at h, ?_⟩, fun _ => rfl⟩
      · rintro ⟨verb, data, hval, _⟩
        obtain ⟨_, m2, hm2, _⟩ := method_of_validated hval
        exact absurd hm2 (hns m2)
      · rintro ((h | ⟨m2, hm2, _⟩ | ⟨m2, hm2, _⟩) | ⟨verb, message, hval, _⟩)
        · rw [ht] at h
          exact absurd h (by decide)
        · exact absurd hm2 (hns m2)
        · exact absurd hm2 (hns m2)
        · obtain ⟨_, m2, hm2, _⟩ := method_of_validated hval
          exact absurd hm2 (hns m2)
  · have hf : truthyField test.method = false := by simpa using ht
    rw [testing_of_falsy_method axios test hf]
    refine ⟨⟨fun h => by simp at h, ?_⟩, ⟨fun _ => Or.inl (Or.inl hf), fun _ => rfl⟩, fun _ => rfl⟩
    rintro ⟨verb, data, hval, _⟩
    exact absurd (method_of_validated hval).1 ht

/-! ## C10 -/

/-- C10: when the transport call of a validated test fails with an error of
message `message`, the run prints `Test failed!` and the message and nothing else,
so neither Succeeded nor an expected or actual value, and returns status 1. -/
theorem testing_request_error (axios : Transport) (test : Test) (verb message : String)
    (h : Validated test verb) (hr : axios (request verb test) = .error message) :
    (testing axios test).log = [.error (.text "Test failed!"), .error (.message message)]
      ∧ (testing axios test).result = .ret 1
      ∧ (testing axios test).succeeded = false
      ∧ (testing axios test).failed = false
      ∧ (testing axios test).log.any Entry.isExpected = false := by
  rw [testing_of_validated axios test verb h, hr]
  exact ⟨rfl, rfl, rfl, rfl, rfl⟩

/-- Scenario F: the transport call rejects with the message `timeout`. -/
theorem testing_request_error_witness :
    Validated plainGet "get"
      ∧ (testing (reject "timeout") plainGet).log
          = [.error (.text "Test failed!"), .error (.message "timeout")]
      ∧ (testing (reject "timeout") plainGet).result = .ret 1 :=
  ⟨⟨"get", rfl, by decide, by decide, by decide⟩,
   (testing_request_error (reject "timeout") plainGet "get" "timeout"
      ⟨"get", rfl, by decide, by decide, by decide⟩ rfl).1,
   (testing_request_error (reject "timeout") plainGet "get" "timeout"
      ⟨"get", rfl, by decide, by decide, by decide⟩ rfl).2.1⟩

/-! ## C11 -/

/-- Run of a validated test with a truthy `expect` whose comparison fails: the five
lines of lines 147-151. -/
theorem onResponse_of_failed (test : Test) (data e : JVal) (he : test.expect = some e)
    (ht : e.truthy = true) (hc : comparison test data e = false) :
    onResponse test data =
      [ .error (.text "Test failed!"),
        .error (.text ("\nExpected response to be [" ++ operatorLabel test ++ "] "
          ++ thanOrTo test ++ " :")),
        .error (.value (.prim (normalize e))),
        .error (.text "\nGot :"),
        .error (.value (.prim (.str data.stringify))) ] := by
  unfold onResponse
  rw [he]
  simp only [ht, hc, if_true, Bool.false_eq_true, if_false]

/-- The label of an absent operator is `eq`. -/
theorem operatorLabel_of_none (test : Test) (h : test.operator = none) :
    operatorLabel test = "eq" := by
  simp [operatorLabel, h]

/-- The label of one of the six operators is the operator. -/
theorem operatorLabel_of_mem (test : Test) (op : String) (h : test.operator = some (jstr op))
    (hop : op ∈ operators) : operatorLabel test = op := by
  have hne : op ≠ "" := by
    rintro rfl
    exact absurd hop (by decide)
  simp [operatorLabel, h, jstr, JVal.truthy, Prim.truthy, hne, JVal.toStr, Prim.toStr]

/-- C11 as stated fails at `{method: "get", url: "http://x", expect: "abd"}` answered
with the string `abc`: the response is a scalar, normalized to itself, and the
value printed after `Got :` is not that scalar but its serialization, the
seven characters `"abc"` with the quotes. -/
theorem testing_string_response_actual :
    normalize (jstr "abc") = .str "abc"
      ∧ (testing (respond (jstr "abc")) expectAbdTest).failed = true
      ∧ (testing (respond (jstr "abc")) expectAbdTest).log
          = [ .error (.text "Test failed!"),
              .error (.text "\nExpected response to be [eq] to :"),
              .error (.value (jstr "abd")),
              .error (.text "\nGot :"),
              .error (.value (jstr "\"abc\"")) ]
      ∧ jstr "\"abc\"" ≠ .prim (normalize (jstr "abc")) := by
  refine ⟨rfl, by decide, ?_, ?_⟩
  · rw [testing_of_response (respond (jstr "abc")) expectAbdTest "get" (jstr "abc")
      ⟨"get", rfl, by decide, by decide, by decide⟩ rfl]
    rw [onResponse_of_failed expectAbdTest (jstr "abc") (jstr "abd") rfl (by decide) (by decide)]
    rfl
  · simp [jstr, normalize, JVal.typeofObject]

/-- C11, amended: when the comparison of a validated test fails, the report is
`Test failed!`, the line naming the operator (`eq` when absent), the normalized
`expect` value, the line `Got :` and the serialization `JSON.stringify` of the
response. That serialization is the normalized response when the response is an
array, an object or `null`, is the text of the scalar when it is a number or a
boolean, and is the quoted and escaped string when it is a string. -/
theorem testing_failed_report (axios : Transport) (test : Test) (verb : String)
    (data e : JVal) (h : Validated test verb) (he : test.expect = some e)
    (ht : e.truthy = true) (hr : axios (request verb test) = .ok data)
    (hc : comparison test data e = false) :
    (∃ label, (testing axios test).log
        = [ .error (.text "Test failed!"),
            .error (.text ("\nExpected response to be [" ++ label ++ "] "
              ++ thanOrTo test ++ " :")),
            .error (.value (.prim (normalize e))),
            .error (.text "\nGot :"),
            .error (.value (.prim (.str data.stringify))) ]
        ∧ (test.operator = none → label = "eq")
        ∧ (∀ op, test.operator = some (jstr op) → op ∈ operators → label = op))
      ∧ (data.typeofObject = true → normalize data = .str data.stringify)
      ∧ (∀ n, data = jnum n → data.stringify = (normalize data).toStr)
      ∧ (∀ b, data = .prim (.bool b) → data.stringify = (normalize data).toStr)
      ∧ (∀ s, data = jstr s → normalize data = .str s ∧ data.stringify = quoteString s) := by
  refine ⟨⟨operatorLabel test, ?_, operatorLabel_of_none test, operatorLabel_of_mem test⟩,
    ?_, ?_, ?_, ?_⟩
  · rw [testing_of_response axios test verb data h hr, onResponse_of_failed test data e he ht hc]
  · intro hobj
    simp [normalize, hobj]
  · rintro n rfl
    rfl
  · rintro b rfl
    cases b <;> rfl
  · rintro s rfl
    exact ⟨rfl, rfl⟩

/-- Scenario B: `expect` is `{id: 1}` and the response is `{id: 2}`; the report gives
the expected `{"id":1}` and the actual `{"id":2}`. -/
theorem testing_failed_report_witness :
    Validated scenarioA "get" ∧ idOne.truthy = true
      ∧ comparison scenarioA idTwo idOne = false
      ∧ (testing (respond idTwo) scenarioA).log
          = [ .error (.text "Test failed!"),
              .error (.text "\nExpected response to be [eq] to :"),
              .error (.value (jstr "\x7b\"id\":1\x7d")),
              .error (.text "\nGot :"),
              .error (.value (jstr "\x7b\"id\":2\x7d")) ] := by
  have hv : Validated scenarioA "get" := ⟨"get", rfl, by decide, by decide, by decide⟩
  have hc : comparison scenarioA idTwo idOne = false := by decide
  obtain ⟨label, hlog, hnone, _⟩ :=
    (testing_failed_report (respond idTwo) scenarioA "get" idTwo idOne hv rfl rfl rfl hc).1
  refine ⟨hv, rfl, hc, ?_⟩
  rw [hlog, hnone rfl]
  rfl

/-! ## C13 -/

/-- C13: a validated test without `expect` that the transport answers prints the
warning, `Test Succeeded!`, `Response :` and the payload as received, and
returns status 0. -/
theorem testing_no_expect (axios : Transport) (test : Test) (verb : String) (data : JVal)
    (h : Validated test verb) (he : test.expect = none)
    (hr : axios (request verb test) = .ok data) :
    (testing axios test).log
        = [ .warn (.text "[WARN] No \"expect\" test. \n"), .log (.text "Test Succeeded!\n"),
            .log (.text "Response :"), .log (.value data) ]
      ∧ (testing axios test).succeeded = true
      ∧ (testing axios test).failed = false
      ∧ (testing axios test).result = .ret 0 := by
  have hf : truthyField test.expect = false := by rw [he]; rfl
  rw [testing_of_response axios test verb data h hr, onResponse_of_falsy test data hf]
  exact ⟨rfl, rfl, rfl, rfl⟩

/-- The test `{method: "get", url: "http://x"}` answered with `{id: 1}`. -/
theorem testing_no_expect_witness :
    Validated plainGet "get"
      ∧ (testing (respond idOne) plainGet).log
          = [ .warn (.text "[WARN] No \"expect\" test. \n"), .log (.text "Test Succeeded!\n"),
              .log (.text "Response :"), .log (.value idOne) ]
      ∧ (testing (respond idOne) plainGet).result = .ret 0 :=
  ⟨⟨"get", rfl, by decide, by decide, by decide⟩,
   (testing_no_expect (respond idOne) plainGet "get" idOne
      ⟨"get", rfl, by decide, by decide, by decide⟩ rfl rfl).1,
   (testing_no_expect (respond idOne) plainGet "get" idOne
      ⟨"get", rfl, by decide, by decide, by decide⟩ rfl rfl).2.2.2⟩

/-! ## C15 -/

/-- C15: a validated test whose `expect` is 0, `false`, the empty string or `null`
takes the branch of line 154 whatever its operator and the payload: it prints
the warning, `Test Succeeded!`, `Response :` and the payload, nothing of a
comparison, and returns status 0. -/
theorem testing_falsy_expect (axios : Transport) (test : Test) (verb : String)
    (data e : JVal) (h : Validated test verb) (he : test.expect = some e)
    (hf : e = jnum 0 ∨ e = .prim (.bool false) ∨ e = jstr "" ∨ e = jnull)
    (hr : axios (request verb test) = .ok data) :
    (testing axios test).log
        = [ .warn (.text "[WARN] No \"expect\" test. \n"), .log (.text "Test Succeeded!\n"),
            .log (.text "Response :"), .log (.value data) ]
      ∧ (testing axios test).log.any Entry.isNoExpectWarning = true
      ∧ (testing axios test).succeeded = true
      ∧ (testing axios test).failed = false
      ∧ (testing axios test).result = .ret 0 := by
  have hfalsy : truthyField test.expect = false := by
    rw [he]
    rcases hf with rfl | rfl | rfl | rfl <;> rfl
  rw [testing_of_response axios test verb data h hr, onResponse_of_falsy test data hfalsy]
  exact ⟨rfl, rfl, rfl, rfl, rfl⟩

/-- With operator lt and `expect` `false`, the response 5 is reported Succeeded,
although `5 < false` does not hold. -/
theorem testing_falsy_expect_witness :
    Validated expectFalseTest "get"
      ∧ jsLt (normalize (jnum 5)) (normalize (.prim (.bool false))) = false
      ∧ (testing (respond (jnum 5)) expectFalseTest).succeeded = true
      ∧ (testing (respond (jnum 5)) expectFalseTest).result = .ret 0 :=
  ⟨⟨"get", rfl, by decide, by decide, by decide⟩, by decide,
   (testing_falsy_expect (respond (jnum 5)) expectFalseTest "get" (jnum 5) (.prim (.bool false))
      ⟨"get", rfl, by decide, by decide, by decide⟩ rfl (Or.inr (Or.inl rfl)) rfl).2.2.1,
   (testing_falsy_expect (respond (jnum 5)) expectFalseTest "get" (jnum 5) (.prim (.bool false))
      ⟨"get", rfl, by decide, by decide, by decide⟩ rfl (Or.inr (Or.inl rfl)) rfl).2.2.2.2⟩

/-! ## C16 -/

/-- The serialization of an array or object is not the empty string. -/
theorem stringify_ne_empty (p : JVal) (h : p.isStructured = true) : p.stringify ≠ "" := by
  intro hs
  have hn := stringToNumber_stringify p h
  rw [hs] at hn
  exact absurd hn (by decide)

/-- C16: for an array or object `p`, a validated test with operator `eq` or none
whose `expect` is the string `JSON.stringify(p)` has outcome Succeeded when the
transport answers with `p`. -/
theorem testing_serialized_expect (axios : Transport) (test : Test) (m : String) (p : JVal)
    (hm : test.method = some (.prim (.str m))) (hv : toLowerCase m ∈ verbs)
    (hp : p.isStructured = true)
    (hop : test.operator = none ∨ test.operator = some (jstr "eq"))
    (he : test.expect = some (jstr p.stringify))
    (hr : axios (request (toLowerCase m) test) = .ok p) :
    (testing axios test).succeeded = true ∧ (testing axios test).failed = false
      ∧ (testing axios test).result = .ret 0 := by
  have hrej : operatorRejected test = false := by
    rcases hop with h | h
    · exact operatorRejected_of_none test h
    · exact operatorRejected_of_mem test "eq" h (by decide)
  have hval : Validated test (toLowerCase m) := ⟨m, hm, rfl, hv, hrej⟩
  have ht : (jstr p.stringify).truthy = true := by
    simp [jstr, JVal.truthy, Prim.truthy, stringify_ne_empty p hp]
  have hn : normalize (jstr p.stringify) = .str p.stringify := rfl
  have hc : comparison test p (jstr p.stringify) = true := by
    rcases hop with h | h
    · rw [comparison_of_none test _ _ h, hn, normalize_of_isStructured p hp]
      exact looseEq_self _
    · rw [comparison_of_operator test _ _ "eq" h (by decide), hn,
        normalize_of_isStructured p hp]
      simp [looseEq]
  have h := onResponse_of_truthy test p (jstr p.stringify) he ht
  rw [hc] at h
  rw [testing_of_response axios test _ p hval hr]
  exact ⟨h.1, by simpa [Run.failed] using h.2.1, rfl⟩

/-- The response `{id: 1}` against the string `{"id":1}` as `expect`. -/
theorem testing_serialized_expect_witness :
    toLowerCase "get" ∈ verbs ∧ idOne.isStructured = true
      ∧ expectSerializedIdOne.expect = some (jstr "\x7b\"id\":1\x7d")
      ∧ (testing (respond idOne) expectSerializedIdOne).succeeded = true :=
  ⟨by decide, rfl,
   congrArg (fun s => some (jstr s)) (by decide : idOne.stringify = "\x7b\"id\":1\x7d"),
   (testing_serialized_expect (respond idOne) expectSerializedIdOne "get" idOne rfl (by decide)
      rfl (Or.inl rfl) rfl rfl).1⟩

/-! ## C17 -/

/-- C17: for a payload and a truthy `expect`, which therefore reaches the
comparison, the test with operator ne has outcome Succeeded exactly when the same
test with operator eq, and likewise with no operator, has outcome Failed. -/
theorem testing_ne_iff_eq_failed (axios : Transport) (test : Test) (m : String)
    (data e : JVal) (hm : test.method = some (.prim (.str m))) (hv : toLowerCase m ∈ verbs)
    (he : test.expect = some e) (ht : e.truthy = true)
    (hr : axios (request (toLowerCase m) test) = .ok data) :
    ((testing axios { test with operator := some (jstr "ne") }).succeeded = true
        ↔ (testing axios { test with operator := some (jstr "eq") }).failed = true)
      ∧ ((testing axios { test with operator := some (jstr "ne") }).succeeded = true
        ↔ (testing axios { test with operator := none }).failed = true) := by
  have key : ∀ (t : Test) (op : Option JVal), t = { test with operator := op } →
      operatorRejected t = false →
      (testing axios t).succeeded = comparison t data e
        ∧ (testing axios t).failed = !comparison t data e := by
    intro t op ht2 hrej
    have hval : Validated t (toLowerCase m) := ⟨m, by rw [ht2]; exact hm, rfl, hv, hrej⟩
    have hreq : request (toLowerCase m) t = request (toLowerCase m) test := by rw [ht2]; rfl
    have hexp : t.expect = some e := by rw [ht2]; exact he
    rw [testing_of_response axios t _ data hval (by rw [hreq]; exact hr)]
    exact ⟨(onResponse_of_truthy t data e hexp ht).1, (onResponse_of_truthy t data e hexp ht).2.1⟩
  have hne := key { test with operator := some (jstr "ne") } _ rfl
    (operatorRejected_of_mem _ "ne" rfl (by decide))
  have heq := key { test with operator := some (jstr "eq") } _ rfl
    (operatorRejected_of_mem _ "eq" rfl (by decide))
  have hnone := key { test with operator := none } _ rfl (operatorRejected_of_none _ rfl)
  rw [hne.1, heq.2, hnone.2,
    comparison_of_operator _ data e "ne" rfl (by decide),
    comparison_of_operator _ data e "eq" rfl (by decide),
    comparison_of_none _ data e rfl]
  simp

/-- Scenario A with operator ne against the response `{id: 2}`: Succeeded, and the
test with operator eq is Failed. -/
theorem testing_ne_iff_eq_failed_witness :
    toLowerCase "get" ∈ verbs ∧ idOne.truthy = true
      ∧ ((testing (respond idTwo) { scenarioA with operator := some (jstr "ne") }).succeeded
            = true
          ↔ (testing (respond idTwo) { scenarioA with operator := some (jstr "eq") }).failed
            = true) :=
  ⟨by decide, rfl,
   (testing_ne_iff_eq_failed (respond idTwo) scenarioA "get" idTwo idOne rfl (by decide) rfl rfl
      rfl).1⟩

/-! ## C14 -/

/-- A string method that is truthy. -/
theorem stringMethod_cases (test : Test) (h : stringMethod test = true) :
    truthyField test.method = false ∨ ∃ m, test.method = some (.prim (.str m)) := by
  unfold stringMethod at h
  split at h
  · rename_i m hm
    exact Or.inr ⟨m, hm⟩
  · exact Or.inl (by simpa using h)

/-- A test whose method is absent, falsy or a string is evaluated to a status, 0 or
1, and a status 1 comes with `Test aborted!` or `Test failed!`. -/
theorem testing_result_of_stringMethod (axios : Transport) (test : Test)
    (h : stringMethod test = true) :
    ((testing axios test).result = .ret 0 ∨ (testing axios test).result = .ret 1)
      ∧ ((testing axios test).result = .ret 1 →
          (testing axios test).aborted = true
            ∨ (testing axios test).log.any Entry.isFailed = true) := by
  rcases stringMethod_cases test h with hf | ⟨m, hm⟩
  · rw [testing_of_falsy_method axios test hf]
    exact ⟨Or.inr rfl, fun _ => Or.inl rfl⟩
  · by_cases ht : truthyField test.method = true
    · by_cases hv : toLowerCase m ∈ verbs
      · cases ho : operatorRejected test with
        | true =>
          rw [testing_of_rejected_operator axios test m hm hv ho]
          exact ⟨Or.inr rfl, fun _ => Or.inl rfl⟩
        | false =>
          rw [testing_of_validated axios test _ ⟨m, hm, rfl, hv, ho⟩]
          cases axios (request (toLowerCase m) test) with
          | ok data => exact ⟨Or.inl rfl, fun hr => by simp at hr⟩
          | error message => exact ⟨Or.inr rfl, fun _ => Or.inr rfl⟩
      · rw [testing_of_unknown_method axios test m hm ht hv]
        exact ⟨Or.inr rfl, fun _ => Or.inl rfl⟩
    · rw [testing_of_falsy_method axios test (by simpa using ht)]
      exact ⟨Or.inr rfl, fun _ => Or.inl rfl⟩

/-- A test whose method is truthy and not a string makes `testing` raise before
any console call. -/
theorem testing_of_not_stringMethod (axios : Transport) (test : Test)
    (h : stringMethod test = false) :
    testing axios test = { log := [], calls := [], result := .typeError } := by
  have hns : ∀ m, test.method ≠ some (.prim (.str m)) := by
    intro m hm
    simp [stringMethod, hm] at h
  have ht : truthyField test.method = true := by
    unfold stringMethod at h
    split at h
    · exact absurd h (by decide)
    · simpa using h
  exact testing_of_non_string_method axios test ht hns

/-- C14 as stated fails at `{method: 5, url: "http://x"}`: the method is truthy, so
line 76 lets it through, and `test.method.toLowerCase` of line 80 raises; the
call completes with neither status and nothing is reported. -/
theorem testing_numeric_method_raises :
    numericMethodTest.method = some (jnum 5)
      ∧ (testing (respond jnull) numericMethodTest).result = .typeError
      ∧ (testing (respond jnull) numericMethodTest).result ≠ .ret 0
      ∧ (testing (respond jnull) numericMethodTest).result ≠ .ret 1
      ∧ (testing (respond jnull) numericMethodTest).log = [] := by
  have h := testing_of_not_stringMethod (respond jnull) numericMethodTest rfl
  rw [h]
  exact ⟨rfl, rfl, by decide, by decide, rfl⟩

/-- C14, amended: for every test definition whose `method` is absent, falsy or a
string, and every behaviour of the transport, `testing` completes with status 0 or
1, and a status 1 comes with the report `Test aborted!` or `Test failed!`; a
`method` that is truthy and not a string makes `testing` raise a TypeError, with
no report. -/
theorem testing_completes (axios : Transport) (test : Test) :
    (stringMethod test = true →
        ((testing axios test).result = .ret 0 ∨ (testing axios test).result = .ret 1)
          ∧ ((testing axios test).result = .ret 1 →
              (testing axios test).aborted = true
                ∨ (testing axios test).log.any Entry.isFailed = true))
      ∧ (stringMethod test = false →
          (testing axios test).result = .typeError ∧ (testing axios test).log = []) := by
  refine ⟨testing_result_of_stringMethod axios test, fun h => ?_⟩
  rw [testing_of_not_stringMethod axios test h]
  exact ⟨rfl, rfl⟩

/-- Scenario E is aborted with status 1 and a report. -/
theorem testing_completes_witness :
    stringMethod scenarioE = true
      ∧ ((testing (respond jnull) scenarioE).result = .ret 0
          ∨ (testing (respond jnull) scenarioE).result = .ret 1) :=
  ⟨rfl, ((testing_completes (respond jnull) scenarioE).1 rfl).1⟩

/-! ## C12 -/

/-- Line 40 does not raise on a method that is absent, falsy or a string. -/
theorem requestLine_of_stringMethod (param : Test) (h : stringMethod param = true) :
    requestLine param = some ((requestLine param).getD []) := by
  rcases stringMethod_cases param h with hf | ⟨m, hm⟩
  · simp [requestLine, hf]
  · unfold requestLine
    rw [hm]
    split <;> rfl

/-- The callback on a test whose method is absent, falsy or a string: its promise
is fulfilled, the block of the test is printed under the number `i`, `testing`
has been invoked with the test, and the counter is incremented. -/
theorem callback_of_stringMethod (axios : Nat → Transport) (s : Session) (param : Test)
    (h : stringMethod param = true) :
    callback axios s param =
      .ok { i := s.i + 1
            log := s.log ++ block axios s.i param
            calls := s.calls ++ (testing (axios s.i) param).calls
            evaluated := s.evaluated ++ [param] } := by
  have hl := requestLine_of_stringMethod param h
  have hr := (testing_result_of_stringMethod (axios s.i) param h).1
  unfold callback
  rw [hl]
  rcases hr with hr | hr <;> simp [hr, block]

/-- The loop from any session, over tests whose method is absent, falsy or a
string. -/
theorem asyncForEach_callback (axios : Nat → Transport) (params : List Test)
    (h : ∀ p ∈ params, stringMethod p = true) (s : Session) :
    asyncForEach params (callback axios) s =
      .ok { i := s.i + params.length
            log := s.log ++ (params.enumFrom s.i).flatMap (fun kp => block axios kp.1 kp.2)
            calls := s.calls
              ++ (params.enumFrom s.i).flatMap (fun kp => (testing (axios kp.1) kp.2).calls)
            evaluated := s.evaluated ++ params } := by
  induction params generalizing s with
  | nil => simp [asyncForEach]
  | cons x xs ih =>
    have hx : stringMethod x = true := h x (List.mem_cons_self x xs)
    have hxs : ∀ p ∈ xs, stringMethod p = true := fun p hp => h p (List.mem_cons_of_mem x hp)
    rw [asyncForEach, callback_of_stringMethod axios s x hx]
    simp only [ih hxs]
    simp [List.enumFrom_cons, List.append_assoc, Nat.add_assoc, Nat.add_comm 1]

/-- C12 as stated fails at the list of `{method: 5, url: "http://x"}` and
`{method: "get", url: "http://x"}`: line 40 raises on the first definition
after its heading, the counter stays at 1, and `testing` is invoked for neither
definition. -/
theorem script_numeric_method_stops :
    script (fun _ => respond jnull) [numericMethodTest, plainGet]
      = .error { i := 1
                 log := [ .log (.text "\n\n\t**************************************************"),
                          .log (.text "\nTEST #1") ]
                 calls := []
                 evaluated := [] } := by
  rfl

/-- C12, amended: for every list of test definitions whose `method` is absent,
falsy or a string, the script invokes `testing` exactly once per definition, in
list order, prints the block of the k-th definition, heading and report, under
the test number k counted from 1, and ends with the counter one past the number
of definitions, whatever the outcomes of the tests. -/
theorem script_runs_every_test (axios : Nat → Transport) (params : List Test)
    (h : ∀ p ∈ params, stringMethod p = true) :
    script axios params =
      .ok { i := params.length + 1
            log := (params.enumFrom 1).flatMap (fun kp =>
              banner kp.1 kp.2 ++ (requestLine kp.2).getD [] ++ bodyLine kp.2
                ++ [.log (.text "")] ++ (testing (axios kp.1) kp.2).log)
            calls := (params.enumFrom 1).flatMap (fun kp => (testing (axios kp.1) kp.2).calls)
            evaluated := params } := by
  unfold script
  rw [asyncForEach_callback axios params h]
  simp [Nat.add_comm, block]

/-- A titled test, the aborted test of scenario E and a test whose request times
out are all evaluated, in order, under the numbers 1, 2 and 3, and the counter
ends at 4. -/
theorem script_runs_every_test_witness :
    (∀ p ∈ [titledGet, scenarioE, plainGet], stringMethod p = true)
      ∧ script timeoutOnThird [titledGet, scenarioE, plainGet] =
        .ok { i := 4
              log := [ .log (.text "\n\n\t**************************************************"),
                       .log (.text "\nTEST #1 - first"),
                       .log (.text "GET http://x"),
                       .log (.text ""),
                       .warn (.text "[WARN] No \"expect\" test. \n"),
                       .log (.text "Test Succeeded!\n"),
                       .log (.text "Response :"),
                       .log (.value jnull),
                       .log (.text "\n\n\t**************************************************"),
                       .log (.text "\nTEST #2"),
                       .log (.text "BOGUS http://x"),
                       .log (.text ""),
                       .error (.text "Test aborted!"),
                       .error (.text "\nUnknowned Method : BOGUS"),
                       .log (.text "\n\n\t**************************************************"),
                       .log (.text "\nTEST #3"),
                       .log (.text "GET http://x"),
                       .log (.text ""),
                       .error (.text "Test failed!"),
                       .error (.message "timeout") ]
              calls := [ { verb := "get", url := some (jstr "http://x"), second := jnull,
                           third := jnull },
                         { verb := "get", url := some (jstr "http://x"), second := jnull,
                           third := jnull } ]
              evaluated := [titledGet, scenarioE, plainGet] } :=
  ⟨fun p hp => by
      simp only [List.mem_cons, List.mem_singleton, List.not_mem_nil, or_false] at hp
      rcases hp with rfl | rfl | rfl <;> rfl,
   (script_runs_every_test timeoutOnThird [titledGet, scenarioE, plainGet] (fun p hp => by
      simp only [List.mem_cons, List.mem_singleton, List.not_mem_nil, or_false] at hp
      rcases hp with rfl | rfl | rfl <;> rfl)).trans rfl⟩

end AxiosTester
